/-
Verification of wg1gps.py: extraction of capture metadata (camera model,
timestamp, JPEG thumbnail, GPS record) from PENTAX Optio WG-1 GPS AVI files.

Shallow embedding conventions:
* A file / byte string is a `List Nat` (one entry per byte, values 0..255 on
  real inputs; the embedding does not need the bound except where stated).
* Python 2 `str` values are byte lists; `bytesOf` converts an ASCII literal.
* `f.read(n)` at position `i` is `readAt data i n` (possibly short at EOF).
* Python `float` arithmetic in the derived accessors is modelled by exact
  rational arithmetic over `ℚ` (the claims under test are sign/algebra facts).
* Exceptions (struct.error on a short unpack, IOError on a negative seek,
  ValueError from strptime) are the `.err` / `Outcome.error` results.
-/
import Mathlib

set_option maxRecDepth 8000

/-- Bytes of an ASCII string literal. -/
def bytesOf (s : String) : List Nat := s.data.map Char.toNat

/-- Python `data[i:i+k]`, also the result of `f.read(k)` when the file
position is `i`: short (or empty) when fewer than `k` bytes remain. -/
def readAt (data : List Nat) (i k : Nat) : List Nat := (data.drop i).take k

/-- `True` iff the bytes of `pat` occur in `b` starting exactly at `i`. -/
def matchesAt (pat b : List Nat) (i : Nat) : Bool :=
  decide (readAt b i pat.length = pat)

/-- Python 2 `s.rstrip(' \0')`: remove trailing space and NUL bytes. -/
def rstripSp (l : List Nat) : List Nat :=
  (l.reverse.dropWhile (fun b => b == 32 || b == 0)).reverse

/-- Little-endian unsigned 32-bit value of a 4-byte slice (struct `<L`). -/
def le32 (l : List Nat) : Nat :=
  match l with
  | [a, b, c, d] => a + 256 * b + 65536 * c + 16777216 * d
  | _ => 0

/-- Little-endian 4-byte encoding of `n` (test-harness builder). -/
def enc32 (n : Nat) : List Nat :=
  [n % 256, n / 256 % 256, n / 65536 % 256, n / 16777216 % 256]

def strRIFF : List Nat := bytesOf "RIFF"
def strAVI : List Nat := bytesOf "AVI "
def strJUNK : List Nat := bytesOf "JUNK"
def strLIST : List Nat := bytesOf "LIST"
def strMovi : List Nat := bytesOf "movi"
def strGPS : List Nat := bytesOf "GPS_"
/-- The device-identifier literal of the regex in `get_avi_metadata`. -/
def modelLit : List Nat := bytesOf "PENTAX Optio WG-1 GPS"
/-- JPEG start-of-image marker FF D8. -/
def soiM : List Nat := [255, 216]
/-- JPEG end-of-image marker FF D9. -/
def eoiM : List Nat := [255, 217]

def isUpperB (b : Nat) : Bool := 65 ≤ b && b ≤ 90
def isLowerB (b : Nat) : Bool := 97 ≤ b && b ≤ 122
def isDigitB (b : Nat) : Bool := 48 ≤ b && b ≤ 57

/-- The 24-byte shape of the regex fragment
`[A-Z][a-z]{2} [A-Z][a-z]{2} \d{2} \d{2}:\d{2}:\d{2} \d{4}`. -/
def shape24 (w : List Nat) : Bool :=
  match w with
  | [u1, l1, l2, s1, u2, l3, l4, s2, d1, d2, s3, h1, h2, c1, m1, m2, c2,
     x1, x2, s4, y1, y2, y3, y4] =>
    isUpperB u1 && isLowerB l1 && isLowerB l2 && (s1 == 32) &&
    isUpperB u2 && isLowerB l3 && isLowerB l4 && (s2 == 32) &&
    isDigitB d1 && isDigitB d2 && (s3 == 32) &&
    isDigitB h1 && isDigitB h2 && (c1 == 58) &&
    isDigitB m1 && isDigitB m2 && (c2 == 58) &&
    isDigitB x1 && isDigitB x2 && (s4 == 32) &&
    isDigitB y1 && isDigitB y2 && isDigitB y3 && isDigitB y4
  | _ => false

/-- The timestamp fragment of the regex matches at position `t`. -/
def tsShapeAt (b : List Nat) (t : Nat) : Bool := shape24 (readAt b t 24)

/-- A naive datetime value (the six fields Python's `datetime` carries here). -/
structure DT where
  year : Nat
  month : Nat
  day : Nat
  hour : Nat
  minute : Nat
  second : Nat
deriving DecidableEq, Repr

def weekdayNames : List (List Nat) :=
  [bytesOf "Mon", bytesOf "Tue", bytesOf "Wed", bytesOf "Thu",
   bytesOf "Fri", bytesOf "Sat", bytesOf "Sun"]

def monthNum (m : List Nat) : Option Nat :=
  if m = bytesOf "Jan" then some 1
  else if m = bytesOf "Feb" then some 2
  else if m = bytesOf "Mar" then some 3
  else if m = bytesOf "Apr" then some 4
  else if m = bytesOf "May" then some 5
  else if m = bytesOf "Jun" then some 6
  else if m = bytesOf "Jul" then some 7
  else if m = bytesOf "Aug" then some 8
  else if m = bytesOf "Sep" then some 9
  else if m = bytesOf "Oct" then some 10
  else if m = bytesOf "Nov" then some 11
  else if m = bytesOf "Dec" then some 12
  else none

def isLeap (y : Nat) : Bool := y % 4 == 0 && (!(y % 100 == 0) || y % 400 == 0)

def daysInMonth (mo y : Nat) : Nat :=
  if mo = 2 then (if isLeap y then 29 else 28)
  else if mo = 4 ∨ mo = 6 ∨ mo = 9 ∨ mo = 11 then 30
  else 31

/-- `datetime.strptime(w, "%a %b %d %H:%M:%S %Y")` on the 24-byte matched
fragment: `none` models the ValueError raised on an invalid weekday/month
name or an out-of-range calendar component. -/
def parseTs (w : List Nat) : Option DT :=
  match w with
  | [u1, l1, l2, _, u2, l3, l4, _, d1, d2, _, h1, h2, _, m1, m2, _,
     x1, x2, _, y1, y2, y3, y4] =>
    if shape24 w = true ∧ [u1, l1, l2] ∈ weekdayNames then
      match monthNum [u2, l3, l4] with
      | none => none
      | some mo =>
        let day := 10 * (d1 - 48) + (d2 - 48)
        let hour := 10 * (h1 - 48) + (h2 - 48)
        let minute := 10 * (m1 - 48) + (m2 - 48)
        let second := 10 * (x1 - 48) + (x2 - 48)
        let year := 1000 * (y1 - 48) + 100 * (y2 - 48) + 10 * (y3 - 48) + (y4 - 48)
        if 1 ≤ year ∧ 1 ≤ day ∧ day ≤ daysInMonth mo year ∧
           hour ≤ 23 ∧ minute ≤ 59 ∧ second ≤ 59 then
          some ⟨year, mo, day, hour, minute, second⟩
        else none
    else none
  | _ => none

/-- A rational stored as its exact `(numerator, denominator)` pair. -/
abbrev RatPair := Nat × Nat

/-- Three rational pairs (a coordinate or time-of-day block). -/
abbrev Rat3 := RatPair × RatPair × RatPair

/-- The sparse GPS field map built at lines 197-211 of wg1gps.py (one field
per dictionary key, in the dictionary's order). -/
structure GpsInfo where
  version : List Nat
  latitudeRef : List Nat
  latitude : Rat3
  longitudeRef : List Nat
  longitude : Rat3
  altitudeRef : Nat
  altitude : RatPair
  timeStamp : Rat3
  satellites : List Nat
  status : List Nat
  measureMode : List Nat
  mapDatum : List Nat
  dateStamp : List Nat
deriving DecidableEq, Repr

/-- `unpack('<L', r[i:i+4])`. -/
def u32 (r : List Nat) (i : Nat) : Nat := le32 (readAt r i 4)

/-- `unpack('<2L', ...)` as a rational pair. -/
def ratAt (r : List Nat) (i : Nat) : RatPair := (u32 r i, u32 r (i + 4))

/-- The field dictionary built from the 130-byte GPS record via
`unpack('<4B2s6L2s6LB2L16x6L3s2s2s7s11s', ...)` (lines 184, 196-211). -/
def decodeGpsFields (r : List Nat) : GpsInfo :=
  { version := readAt r 0 4
    latitudeRef := rstripSp (readAt r 4 2)
    latitude := (ratAt r 6, ratAt r 14, ratAt r 22)
    longitudeRef := rstripSp (readAt r 30 2)
    longitude := (ratAt r 32, ratAt r 40, ratAt r 48)
    altitudeRef := (readAt r 56 1).getD 0 0
    altitude := ratAt r 57
    timeStamp := (ratAt r 81, ratAt r 89, ratAt r 97)
    satellites := rstripSp (readAt r 105 3)
    status := rstripSp (readAt r 108 2)
    measureMode := rstripSp (readAt r 110 2)
    mapDatum := rstripSp (readAt r 112 7)
    dateStamp := rstripSp (readAt r 119 11) }

/-- Lines 197-213: the field map, discarded entirely (set to `None`) when the
trimmed latitude-reference string is empty. -/
def decodeGpsInfo (r : List Nat) : Option GpsInfo :=
  let g := decodeGpsFields r
  if g.latitudeRef = [] then none else some g

/-- The `Metadata` value object (constructor arguments of lines 33-37). -/
structure Metadata where
  camera_model : List Nat
  datetime_original : DT
  thumbnail : List Nat
  gpsinfo : Option GpsInfo
deriving DecidableEq, Repr

/-- Exact value of a rational pair (Python `float(n)/d`, modelled over ℚ). -/
def ratOf (p : RatPair) : ℚ := (p.1 : ℚ) / (p.2 : ℚ)

/-- `Metadata._latlong_deg`: degrees + minutes/60 + seconds/3600. -/
def latlongDeg (x : Rat3) : ℚ :=
  ratOf x.1 + ratOf x.2.1 / 60 + ratOf x.2.2 / 3600

/-- `Metadata.gps_version_id`: dotted version string, `None` without GPS. -/
def Metadata.gps_version_id (m : Metadata) : Option String :=
  m.gpsinfo.map fun g => String.intercalate "." (g.version.map toString)

/-- `Metadata.gps_latitude` (lines 79-89): decimal degrees, negated when the
latitude reference equals "S"; `None` without GPS. -/
def Metadata.gps_latitude (m : Metadata) : Option ℚ :=
  m.gpsinfo.map fun g =>
    if g.latitudeRef = bytesOf "S" then -(latlongDeg g.latitude)
    else latlongDeg g.latitude

/-- `Metadata.gps_longitude` (lines 91-101): negated when the longitude
reference equals "W"; `None` without GPS. -/
def Metadata.gps_longitude (m : Metadata) : Option ℚ :=
  m.gpsinfo.map fun g =>
    if g.longitudeRef = bytesOf "W" then -(latlongDeg g.longitude)
    else latlongDeg g.longitude

/-- `Metadata.gps_altitude` (lines 103-115): magnitude `n/d`, negated when
the altitude-reference byte equals 1; `None` without GPS. -/
def Metadata.gps_altitude (m : Metadata) : Option ℚ :=
  m.gpsinfo.map fun g =>
    if g.altitudeRef = 1 then -(ratOf g.altitude) else ratOf g.altitude

/-- `Metadata.gps_satellites`: `None` without GPS. -/
def Metadata.gps_satellites (m : Metadata) : Option (List Nat) :=
  m.gpsinfo.map fun g => g.satellites

/-- `Metadata.gps_status`: `None` without GPS. -/
def Metadata.gps_status (m : Metadata) : Option (List Nat) :=
  m.gpsinfo.map fun g => g.status

/-- `Metadata.gps_measure_mode`: `None` without GPS. -/
def Metadata.gps_measure_mode (m : Metadata) : Option (List Nat) :=
  m.gpsinfo.map fun g => g.measureMode

/-- `Metadata.gps_map_datum`: `None` without GPS. -/
def Metadata.gps_map_datum (m : Metadata) : Option (List Nat) :=
  m.gpsinfo.map fun g => g.mapDatum

def digitsVal (l : List Nat) : Nat := l.foldl (fun a b => 10 * a + (b - 48)) 0

/-- Body of `Metadata.gps_datetime` for a present field map: models
`strptime(datestamp.replace(':','/') + " " + ":".join(str(int(n/d))...),
"%Y/%m/%d %H:%M:%S")`, with `none` for the ValueError (bad shape or
out-of-range component) or the ZeroDivisionError on a zero denominator. -/
def composeGpsDatetime (g : GpsInfo) : Option DT :=
  let r1 := g.timeStamp.1
  let r2 := g.timeStamp.2.1
  let r3 := g.timeStamp.2.2
  if r1.2 = 0 ∨ r2.2 = 0 ∨ r3.2 = 0 then none
  else
    let h := r1.1 / r1.2
    let mi := r2.1 / r2.2
    let s := r3.1 / r3.2
    let d := g.dateStamp.map (fun b => if b = 58 then 47 else b)
    let ys := d.takeWhile isDigitB
    match d.dropWhile isDigitB with
    | 47 :: rest2 =>
      let ms := rest2.takeWhile isDigitB
      match rest2.dropWhile isDigitB with
      | 47 :: rest4 =>
        let ds := rest4.takeWhile isDigitB
        if rest4.dropWhile isDigitB = [] ∧ ys.length = 4 ∧
           1 ≤ ms.length ∧ ms.length ≤ 2 ∧ 1 ≤ ds.length ∧ ds.length ≤ 2 then
          let y := digitsVal ys
          let mo := digitsVal ms
          let dd := digitsVal ds
          if 1 ≤ y ∧ 1 ≤ mo ∧ mo ≤ 12 ∧ 1 ≤ dd ∧ dd ≤ daysInMonth mo y ∧
             h ≤ 23 ∧ mi ≤ 59 ∧ s ≤ 59 then
            some ⟨y, mo, dd, h, mi, s⟩
          else none
        else none
      | _ => none
    | _ => none

/-- `Metadata.gps_datetime` (lines 158-169). Outer `none`: no GPS field map
(the property returns `None`); inner `none`: the composed string does not
parse (Python would raise). -/
def Metadata.gps_datetime (m : Metadata) : Option (Option DT) :=
  m.gpsinfo.map composeGpsDatetime

/-- Result of `_get_junk_chunk`: payload found / `None` / exception raised.
`outOfFuel` is an artefact of the fuelled loop model and is proved
unreachable (`chunkScan_fuel_enough`). -/
inductive ScanOut where
  | found : List Nat → ScanOut
  | noJunk : ScanOut
  | err : ScanOut
  | outOfFuel : ScanOut
deriving DecidableEq, Repr

/-- The `while True` chunk loop of `_get_junk_chunk` (lines 228-238), with
the file position `cur` explicit.  A short read of the 8-byte chunk header
is struct.error (`.err`); a `seek` to a negative position is IOError. -/
def chunkScan (data : List Nat) : Nat → Nat → ScanOut
  | _, 0 => ScanOut.outOfFuel
  | cur, fuel + 1 =>
    if data.length < cur + 8 then ScanOut.err
    else
      let tag := readAt data cur 4
      let size := le32 (readAt data (cur + 4) 4)
      if tag = strJUNK then ScanOut.found (readAt data (cur + 8) size)
      else if tag = strLIST then
        if readAt data (cur + 8) 4 = strMovi then ScanOut.noJunk
        else
          let after := min (cur + 12) data.length
          let target : Int := (after : Int) + (size : Int) - 4
          if target < 0 then ScanOut.err
          else chunkScan data target.toNat fuel
      else chunkScan data (cur + 8 + size) fuel

/-- `_get_junk_chunk` (lines 220-238): 12-byte header check, then the chunk
scan.  A file of fewer than 12 bytes is struct.error; a header that is not
RIFF/AVI falls through and returns `None` (`noJunk`). -/
def getJunkChunk (data : List Nat) : ScanOut :=
  if data.length < 12 then ScanOut.err
  else if readAt data 0 4 = strRIFF ∧ readAt data 8 4 = strAVI then
    chunkScan data 12 (data.length + 8)
  else ScanOut.noJunk

/-- Upward search: first index `j` with `i ≤ j < i + k` and `P j`. -/
def ffGo (P : Nat → Bool) : Nat → Nat → Option Nat
  | _, 0 => none
  | i, k + 1 => if P i then some i else ffGo P (i + 1) k

/-- First index `j` with `i ≤ j < n` and `P j`, searching upward. -/
def findFirstFrom (P : Nat → Bool) (i n : Nat) : Option Nat := ffGo P i (n - i)

/-- Last index `i < n` with `P i`, searching downward. -/
def findLastBelow (P : Nat → Bool) : Nat → Option Nat
  | 0 => none
  | n + 1 => if P n then some n else findLastBelow P n

/-- `\xFF\xD9GPS_.{130}` can be placed with the EOI marker at `q`:
the end-of-image marker, immediately followed by the GPS_ literal and at
least 130 further bytes. -/
def okQ (b : List Nat) (q : Nat) : Bool :=
  matchesAt eoiM b q && matchesAt strGPS b (q + 2) && decide (q + 136 ≤ b.length)

/-- Group 3 (`\xFF\xD8.*\xFF\xD9`) can start at `p` and the rest of the
pattern still matches: SOI at `p` and some qualifying EOI at `q ≥ p + 2`. -/
def okP (b : List Nat) (p : Nat) : Bool :=
  matchesAt soiM b p &&
    (List.range b.length).any (fun q => decide (p + 2 ≤ q) && okQ b q)

/-- Group 2 (the timestamp) can start at `t` and the rest still matches. -/
def okT (b : List Nat) (t : Nat) : Bool :=
  tsShapeAt b t &&
    (List.range b.length).any (fun p => decide (t + 24 ≤ p) && okP b p)

/-- The whole pattern can match starting at `s` (group 1 is the literal). -/
def okS (b : List Nat) (s : Nat) : Bool :=
  matchesAt modelLit b s &&
    (List.range b.length).any (fun t => decide (s + 21 ≤ t) && okT b t)

/-- `re.search(pattern, junk_chunk, re.S)` of line 190, as its deterministic
backtracking semantics: the match start `s` is the least position admitting
a full match; the two `.*?` gaps are lazy, so the timestamp start `t` and the
SOI position `p` are minimal (among completable choices); the `.*` inside
group 3 is greedy, so the EOI position `q` is maximal.  Returns the four
group positions `(s, t, p, q)`. -/
def regexSearch (b : List Nat) : Option (Nat × Nat × Nat × Nat) :=
  match findFirstFrom (okS b) 0 b.length with
  | none => none
  | some s =>
    match findFirstFrom (okT b) (s + 21) b.length with
    | none => none
    | some t =>
      match findFirstFrom (okP b) (t + 24) b.length with
      | none => none
      | some p =>
        match findLastBelow (fun q => decide (p + 2 ≤ q) && okQ b q) b.length with
        | none => none
        | some q => some (s, t, p, q)

/-- Result of `get_avi_metadata`: an exception escaped (`error`), the Python
`None` result (`noMeta`), or a `Metadata` value. -/
inductive Outcome where
  | error : Outcome
  | noMeta : Outcome
  | meta : Metadata → Outcome
deriving DecidableEq, Repr

/-- `get_avi_metadata` (lines 177-217) on the file's bytes. -/
def get_avi_metadata (data : List Nat) : Outcome :=
  match getJunkChunk data with
  | ScanOut.err => Outcome.error
  | ScanOut.outOfFuel => Outcome.error
  | ScanOut.noJunk => Outcome.noMeta
  | ScanOut.found payload =>
    if payload = [] then Outcome.noMeta
    else
      match regexSearch payload with
      | none => Outcome.noMeta
      | some (s, t, p, q) =>
        match parseTs (readAt payload t 24) with
        | none => Outcome.error
        | some dt =>
          Outcome.meta
            { camera_model := readAt payload s 21
              datetime_original := dt
              thumbnail := readAt payload p (q + 2 - p)
              gpsinfo := decodeGpsInfo (readAt payload (q + 6) 130) }

/-- Concatenation of a list of byte lists (test-harness builder). -/
def catl : List (List Nat) → List Nat
  | [] => []
  | l :: L => l ++ catl L

/-- Synthetic GPS record builder: the fields at their documented offsets. -/
def mkGpsRecord (ver latRef : List Nat) (la1 la2 la3 : RatPair)
    (lonRef : List Nat) (lo1 lo2 lo3 : RatPair) (altRef : Nat)
    (alt : RatPair) (reserved : List Nat) (t1 t2 t3 : RatPair)
    (sat stat mm datum date : List Nat) : List Nat :=
  catl [ver, latRef,
        enc32 la1.1, enc32 la1.2, enc32 la2.1, enc32 la2.2, enc32 la3.1, enc32 la3.2,
        lonRef,
        enc32 lo1.1, enc32 lo1.2, enc32 lo2.1, enc32 lo2.2, enc32 lo3.1, enc32 lo3.2,
        [altRef], enc32 alt.1, enc32 alt.2, reserved,
        enc32 t1.1, enc32 t1.2, enc32 t2.1, enc32 t2.2, enc32 t3.1, enc32 t3.2,
        sat, stat, mm, datum, date]

/-- Synthetic JUNK payload: the four fragments in order with filler between
the first three and the GPS_ marker adjacent to the thumbnail's EOI. -/
def mkPayload (f1 f2 f3 mid record f4 ts : List Nat) : List Nat :=
  catl [f1, modelLit, f2, ts, f3, soiM, mid, eoiM, strGPS, record, f4]

/-- Synthetic container: RIFF/AVI header, then one JUNK chunk whose declared
size is the payload length, then arbitrary trailing bytes. -/
def mkContainer (szB payload rest : List Nat) : List Nat :=
  catl [strRIFF, szB, strAVI, strJUNK, enc32 payload.length, payload, rest]

/-- Concrete valid timestamp fragment (witness data). -/
def tsEx : List Nat := bytesOf "Mon Jan 02 03:04:05 2012"

/-- Concrete GPS record (the spec's section-8 scenario; witness data). -/
def recEx : List Nat :=
  mkGpsRecord [2, 3, 0, 0] (bytesOf "N" ++ [0]) (35, 1) (12, 1) (3456, 100)
    (bytesOf "E" ++ [0]) (139, 1) (0, 1) (0, 1) 0 (10, 1) (List.replicate 16 0)
    (3, 1) (4, 1) (5, 1) (bytesOf "06" ++ [0]) (bytesOf "A" ++ [0])
    (bytesOf "3" ++ [0]) (bytesOf "WGS-84 ") (bytesOf "2012:01:02" ++ [0])

/-- Concrete well-formed payload and container (witness data for C1). -/
def payEx : List Nat := mkPayload [] [] [] [] recEx [] tsEx

def conEx : List Nat := mkContainer [0, 0, 0, 0] payEx []

/-- A 12-byte file that is not a RIFF container (counterexample data, C2). -/
def exNoRiff : List Nat := bytesOf "XIFFabcdAVI "

/-- RIFF/AVI container whose JUNK chunk declares 100 payload bytes but only
2 remain in the file (counterexample data, C6). -/
def exTruncJunk : List Nat :=
  strRIFF ++ [0, 0, 0, 0] ++ strAVI ++ strJUNK ++ enc32 100 ++ [65, 66]

/-- Payload with all four fragments in order but one filler byte between the
thumbnail's EOI marker and the GPS_ marker (counterexample data, C1). -/
def payFiller : List Nat := catl [modelLit, tsEx, soiM, eoiM, [0], strGPS, recEx]

def exFiller : List Nat := mkContainer [0, 0, 0, 0] payFiller []

/-- Payload whose thumbnail contains an internal EOI marker before the final
one (counterexample / witness data, C3). -/
def payTwoEoi : List Nat := mkPayload [] [] [] [0, 255, 217, 1] recEx [] tsEx

def exTwoEoi : List Nat := mkContainer [0, 0, 0, 0] payTwoEoi []

/-- GPS record whose latitude reference is all spaces/NUL while every other
field is non-empty (witness data, C4). -/
def recBlank : List Nat :=
  mkGpsRecord [2, 3, 0, 0] [32, 0] (35, 1) (12, 1) (3456, 100)
    (bytesOf "E" ++ [0]) (139, 1) (0, 1) (0, 1) 0 (10, 1) (List.replicate 16 0)
    (3, 1) (4, 1) (5, 1) (bytesOf "06" ++ [0]) (bytesOf "A" ++ [0])
    (bytesOf "3" ++ [0]) (bytesOf "WGS-84 ") (bytesOf "2012:01:02" ++ [0])

/-- Container whose first chunk is JUNK with a 2-byte payload (C5 witness). -/
def dataJunkW : List Nat :=
  strRIFF ++ [0, 0, 0, 0] ++ strAVI ++ strJUNK ++ enc32 2 ++ [7, 7]

/-- Container whose first chunk is LIST/movi (C5 witness). -/
def dataMoviW : List Nat :=
  strRIFF ++ [0, 0, 0, 0] ++ strAVI ++ strLIST ++ enc32 4 ++ strMovi

/-- Container whose first chunk is LIST with a non-movi subtype (C5 witness). -/
def dataListW : List Nat :=
  strRIFF ++ [0, 0, 0, 0] ++ strAVI ++ strLIST ++ enc32 8 ++ bytesOf "hdrl" ++
    [1, 2, 3, 4] ++ strJUNK ++ enc32 0

/-- Container whose first chunk has an ordinary tag (C5 witness). -/
def dataSkipW : List Nat :=
  strRIFF ++ [0, 0, 0, 0] ++ strAVI ++ bytesOf "avih" ++ enc32 3 ++ [9, 9, 9] ++
    strJUNK ++ enc32 0

/-! ## Basic lemmas about slicing and concatenation -/

lemma catl_append (L1 L2 : List (List Nat)) :
    catl (L1 ++ L2) = catl L1 ++ catl L2 := by
  induction L1 with
  | nil => simp [catl]
  | cons h t ih => simp [catl, ih]

lemma readAt_cat (L1 L2 L3 : List (List Nat)) :
    readAt (catl (L1 ++ L2 ++ L3)) (catl L1).length (catl L2).length = catl L2 := by
  rw [catl_append, catl_append, readAt, List.append_assoc, List.drop_left,
    List.take_left]

lemma readAt_cat_at (L1 L2 L3 : List (List Nat)) (off k : Nat)
    (hoff : (catl L1).length = off) (hk : (catl L2).length = k) :
    readAt (catl (L1 ++ L2 ++ L3)) off k = catl L2 := by
  subst hoff; subst hk; exact readAt_cat L1 L2 L3

lemma enc32_length (n : Nat) : (enc32 n).length = 4 := rfl

lemma le32_enc32 (n : Nat) (h : n < 4294967296) : le32 (enc32 n) = n := by
  simp [le32, enc32]
  omega

lemma u32_cat_at (L1 L3 : List (List Nat)) (x off : Nat)
    (hoff : (catl L1).length = off) (hx : x < 4294967296) :
    u32 (catl (L1 ++ [enc32 x] ++ L3)) off = x := by
  unfold u32
  rw [readAt_cat_at L1 [enc32 x] L3 off 4 hoff (by simp [catl, enc32_length])]
  simpa [catl] using le32_enc32 x hx

/-! ## First / last search characterisations -/

lemma ffGo_some : ∀ (k : Nat) (P : Nat → Bool) (i s : Nat), i ≤ s →
    s < i + k → P s = true → (∀ j, i ≤ j → j < s → P j = false) →
    ffGo P i k = some s := by
  intro k
  induction k with
  | zero => intro P i s h1 h2 _ _; omega
  | succ m ih =>
    intro P i s h1 h2 hP hf
    by_cases his : i = s
    · subst his
      simp [ffGo, hP]
    · have hPi : P i = false := hf i le_rfl (by omega)
      simp only [ffGo, hPi, Bool.false_eq_true, if_false]
      exact ih P (i + 1) s (by omega) (by omega) hP
        (fun j ha hb => hf j (by omega) hb)

lemma ffFrom_some (P : Nat → Bool) (i n s : Nat) (h1 : i ≤ s) (h2 : s < n)
    (h3 : P s = true) (h4 : ∀ j, i ≤ j → j < s → P j = false) :
    findFirstFrom P i n = some s :=
  ffGo_some (n - i) P i s h1 (by omega) h3 h4

lemma ffGo_none : ∀ (k : Nat) (P : Nat → Bool) (i : Nat),
    (∀ j, i ≤ j → j < i + k → P j = false) → ffGo P i k = none := by
  intro k
  induction k with
  | zero => intro P i _; rfl
  | succ m ih =>
    intro P i h
    have hPi : P i = false := h i le_rfl (by omega)
    simp only [ffGo, hPi, Bool.false_eq_true, if_false]
    exact ih P (i + 1) (fun j ha hb => h j (by omega) (by omega))

lemma ffFrom_none (P : Nat → Bool) (i n : Nat)
    (h : ∀ j, i ≤ j → j < n → P j = false) : findFirstFrom P i n = none :=
  ffGo_none (n - i) P i (fun j ha hb => h j ha (by omega))

lemma flBelow_some (P : Nat → Bool) : ∀ (n q : Nat), q < n → P q = true →
    (∀ j, q < j → j < n → P j = false) → findLastBelow P n = some q := by
  intro n
  induction n with
  | zero => intro q h; omega
  | succ m ih =>
    intro q hq hP hfalse
    by_cases hqm : q = m
    · subst hqm; simp [findLastBelow, hP]
    · have hlt : q < m := by omega
      have hPm : P m = false := hfalse m (by omega) (by omega)
      simp only [findLastBelow, hPm, Bool.false_eq_true, if_false]
      exact ih q hlt hP (fun j h1 h2 => hfalse j h1 (by omega))

lemma range_any_true {f : Nat → Bool} {n j : Nat} (hj : j < n)
    (hf : f j = true) : (List.range n).any f = true := by
  rw [List.any_eq_true]
  exact ⟨j, List.mem_range.mpr hj, hf⟩

lemma range_any_false {f : Nat → Bool} {n : Nat}
    (h : ∀ j, j < n → f j = false) : (List.range n).any f = false := by
  rw [List.any_eq_false]
  intro x hx
  simp [h x (List.mem_range.mp hx)]

/-! ## Chunk scan: termination and container facts -/

lemma chunkScan_fuel_enough (data : List Nat) :
    ∀ fuel cur, 1 ≤ fuel → data.length + 8 ≤ cur + 4 * fuel →
      chunkScan data cur fuel ≠ ScanOut.outOfFuel := by
  intro fuel
  induction fuel with
  | zero => intro cur h1 _; omega
  | succ f ih =>
    intro cur _ hbound hcontra
    simp only [chunkScan] at hcontra
    split at hcontra
    · exact absurd hcontra (by simp)
    · next hlen =>
      split at hcontra
      · exact absurd hcontra (by simp)
      · split at hcontra
        · split at hcontra
          · exact absurd hcontra (by simp)
          · split at hcontra
            · exact absurd hcontra (by simp)
            · next htgt =>
              refine ih _ ?_ ?_ hcontra
              · omega
              · omega
        · exact ih _ (by omega) (by omega) hcontra

lemma getJunkChunk_ne_outOfFuel (data : List Nat) :
    getJunkChunk data ≠ ScanOut.outOfFuel := by
  unfold getJunkChunk
  split
  · simp
  · split
    · exact chunkScan_fuel_enough data (data.length + 8) 12 (by omega) (by omega)
    · simp

lemma modelLit_length : modelLit.length = 21 := by decide

lemma chunkScan_short (data : List Nat) (cur fuel : Nat)
    (h : data.length < cur + 8) :
    chunkScan data cur (fuel + 1) = ScanOut.err := by
  simp only [chunkScan]
  rw [if_pos h]

lemma chunkScan_junk (data : List Nat) (cur fuel : Nat)
    (hlen : cur + 8 ≤ data.length) (htag : readAt data cur 4 = strJUNK) :
    chunkScan data cur (fuel + 1)
      = ScanOut.found (readAt data (cur + 8) (le32 (readAt data (cur + 4) 4))) := by
  simp only [chunkScan]
  rw [if_neg (by omega), htag, if_pos rfl]

lemma chunkScan_movi (data : List Nat) (cur fuel : Nat)
    (hlen : cur + 8 ≤ data.length) (htag : readAt data cur 4 = strLIST)
    (hsub : readAt data (cur + 8) 4 = strMovi) :
    chunkScan data cur (fuel + 1) = ScanOut.noJunk := by
  simp only [chunkScan]
  rw [if_neg (by omega), htag, if_neg (by decide), if_pos rfl, hsub, if_pos rfl]

lemma chunkScan_listSkip (data : List Nat) (cur fuel : Nat)
    (hlen : cur + 12 ≤ data.length) (htag : readAt data cur 4 = strLIST)
    (hsub : readAt data (cur + 8) 4 ≠ strMovi)
    (hsize : 4 ≤ le32 (readAt data (cur + 4) 4)) :
    chunkScan data cur (fuel + 1)
      = chunkScan data (cur + 8 + le32 (readAt data (cur + 4) 4)) fuel := by
  simp only [chunkScan]
  rw [if_neg (by omega), htag, if_neg (by decide), if_pos rfl, if_neg hsub,
    if_neg (by omega)]
  congr 1
  omega

lemma chunkScan_skip (data : List Nat) (cur fuel : Nat)
    (hlen : cur + 8 ≤ data.length) (htag1 : readAt data cur 4 ≠ strJUNK)
    (htag2 : readAt data cur 4 ≠ strLIST) :
    chunkScan data cur (fuel + 1)
      = chunkScan data (cur + 8 + le32 (readAt data (cur + 4) 4)) fuel := by
  simp only [chunkScan]
  rw [if_neg (by omega), if_neg htag1, if_neg htag2]

lemma getJunk_mkContainer (szB payload rest : List Nat) (hsz : szB.length = 4)
    (hpl : payload.length < 4294967296) :
    getJunkChunk (mkContainer szB payload rest) = ScanOut.found payload := by
  have hlen : (mkContainer szB payload rest).length
      = 20 + payload.length + rest.length := by
    simp only [mkContainer, catl, List.length_append, List.length_nil,
      enc32_length, hsz]
    norm_num [strRIFF, strAVI, strJUNK, bytesOf]
    omega
  have h0 : readAt (mkContainer szB payload rest) 0 4 = strRIFF := by
    have := readAt_cat_at []
      [strRIFF] [szB, strAVI, strJUNK, enc32 payload.length, payload, rest]
      0 4 (by simp [catl]) (by simp [catl, strRIFF, bytesOf])
    simpa [catl, mkContainer] using this
  have h8 : readAt (mkContainer szB payload rest) 8 4 = strAVI := by
    have := readAt_cat_at [strRIFF, szB]
      [strAVI] [strJUNK, enc32 payload.length, payload, rest]
      8 4 (by simp only [catl, List.length_append, List.length_nil]
             ; norm_num [strRIFF, bytesOf, hsz])
      (by simp [catl, strAVI, bytesOf])
    simpa [catl, mkContainer] using this
  have h12 : readAt (mkContainer szB payload rest) 12 4 = strJUNK := by
    have := readAt_cat_at [strRIFF, szB, strAVI]
      [strJUNK] [enc32 payload.length, payload, rest]
      12 4 (by simp only [catl, List.length_append, List.length_nil]
              ; norm_num [strRIFF, strAVI, bytesOf, hsz])
      (by simp [catl, strJUNK, bytesOf])
    simpa [catl, mkContainer] using this
  have h16 : readAt (mkContainer szB payload rest) 16 4 = enc32 payload.length := by
    have := readAt_cat_at [strRIFF, szB, strAVI, strJUNK]
      [enc32 payload.length] [payload, rest]
      16 4 (by simp only [catl, List.length_append, List.length_nil]
              ; norm_num [strRIFF, strAVI, strJUNK, bytesOf, hsz])
      (by simp [catl, enc32_length])
    simpa [catl, mkContainer] using this
  have h20 : readAt (mkContainer szB payload rest) 20 payload.length = payload := by
    have := readAt_cat_at [strRIFF, szB, strAVI, strJUNK, enc32 payload.length]
      [payload] [rest]
      20 payload.length
      (by simp only [catl, List.length_append, List.length_nil, enc32_length]
          ; norm_num [strRIFF, strAVI, strJUNK, bytesOf, hsz])
      (by simp [catl])
    simpa [catl, mkContainer] using this
  unfold getJunkChunk
  rw [if_neg (by omega), h0, h8, if_pos ⟨rfl, rfl⟩]
  obtain ⟨f, hf⟩ : ∃ f, (mkContainer szB payload rest).length + 8 = f + 1 :=
    ⟨(mkContainer szB payload rest).length + 7, rfl⟩
  rw [hf, chunkScan_junk _ 12 f (by omega) h12]
  norm_num
  rw [h16, le32_enc32 payload.length hpl, h20]

lemma str_cat_at (L1 : List (List Nat)) (seg : List Nat) (L3 : List (List Nat))
    (off k : Nat) (hoff : (catl L1).length = off) (hk : seg.length = k) :
    readAt (catl (L1 ++ [seg] ++ L3)) off k = seg := by
  have h := readAt_cat_at L1 [seg] L3 off k hoff (by simp [catl, hk])
  simpa [catl] using h

/-- Decoding the synthetic GPS record recovers the injected field values
(the right-trim applied to the ASCII fields, exact pairs for the rationals):
the byte layout of `decodeGpsFields` matches `mkGpsRecord`'s. -/
lemma decodeGpsFields_mk
    (ver latRef lonRef reserved sat stat mm datum date : List Nat)
    (la1 la2 la3 lo1 lo2 lo3 alt t1 t2 t3 : RatPair) (altRef : Nat)
    (hver : ver.length = 4) (hlatRef : latRef.length = 2)
    (hlonRef : lonRef.length = 2) (hres : reserved.length = 16)
    (hsat : sat.length = 3) (hstat : stat.length = 2) (hmml : mm.length = 2)
    (hdatum : datum.length = 7) (hdate : date.length = 11)
    (hb : ∀ x ∈ [la1.1, la1.2, la2.1, la2.2, la3.1, la3.2, lo1.1, lo1.2,
      lo2.1, lo2.2, lo3.1, lo3.2, alt.1, alt.2, t1.1, t1.2, t2.1, t2.2,
      t3.1, t3.2], x < 4294967296) :
    decodeGpsFields (mkGpsRecord ver latRef la1 la2 la3 lonRef lo1 lo2 lo3
        altRef alt reserved t1 t2 t3 sat stat mm datum date)
    = ⟨ver, rstripSp latRef, (la1, la2, la3), rstripSp lonRef,
       (lo1, lo2, lo3), altRef, alt, (t1, t2, t3), rstripSp sat, rstripSp stat,
       rstripSp mm, rstripSp datum, rstripSp date⟩ := by
  unfold mkGpsRecord
  set R : List Nat := catl [ver, latRef, enc32 la1.1, enc32 la1.2, enc32 la2.1, enc32 la2.2, enc32 la3.1, enc32 la3.2, lonRef, enc32 lo1.1, enc32 lo1.2, enc32 lo2.1, enc32 lo2.2, enc32 lo3.1, enc32 lo3.2, [altRef], enc32 alt.1, enc32 alt.2, reserved, enc32 t1.1, enc32 t1.2, enc32 t2.1, enc32 t2.2, enc32 t3.1, enc32 t3.2, sat, stat, mm, datum, date] with hR
  have hA : readAt R 0 4 = ver := by
    have h := str_cat_at [] ver [latRef, enc32 la1.1, enc32 la1.2, enc32 la2.1, enc32 la2.2, enc32 la3.1, enc32 la3.2, lonRef, enc32 lo1.1, enc32 lo1.2, enc32 lo2.1, enc32 lo2.2, enc32 lo3.1, enc32 lo3.2, [altRef], enc32 alt.1, enc32 alt.2, reserved, enc32 t1.1, enc32 t1.2, enc32 t2.1, enc32 t2.2, enc32 t3.1, enc32 t3.2, sat, stat, mm, datum, date] 0 4 (by simp [catl]) hver
    simp only [List.cons_append, List.nil_append] at h
    rw [← hR] at h
    exact h
  have hB : readAt R 4 2 = latRef := by
    have h := str_cat_at [ver] latRef [enc32 la1.1, enc32 la1.2, enc32 la2.1, enc32 la2.2, enc32 la3.1, enc32 la3.2, lonRef, enc32 lo1.1, enc32 lo1.2, enc32 lo2.1, enc32 lo2.2, enc32 lo3.1, enc32 lo3.2, [altRef], enc32 alt.1, enc32 alt.2, reserved, enc32 t1.1, enc32 t1.2, enc32 t2.1, enc32 t2.2, enc32 t3.1, enc32 t3.2, sat, stat, mm, datum, date] 4 2 (by simp [catl, hver]) hlatRef
    simp only [List.cons_append, List.nil_append] at h
    rw [← hR] at h
    exact h
  have hC1 : ratAt R 6 = la1 := by
    have hx := u32_cat_at [ver, latRef] [enc32 la1.2, enc32 la2.1, enc32 la2.2, enc32 la3.1, enc32 la3.2, lonRef, enc32 lo1.1, enc32 lo1.2, enc32 lo2.1, enc32 lo2.2, enc32 lo3.1, enc32 lo3.2, [altRef], enc32 alt.1, enc32 alt.2, reserved, enc32 t1.1, enc32 t1.2, enc32 t2.1, enc32 t2.2, enc32 t3.1, enc32 t3.2, sat, stat, mm, datum, date] la1.1 6 (by simp [catl, hlatRef, hver]) (hb _ (by simp))
    have hy := u32_cat_at [ver, latRef, enc32 la1.1] [enc32 la2.1, enc32 la2.2, enc32 la3.1, enc32 la3.2, lonRef, enc32 lo1.1, enc32 lo1.2, enc32 lo2.1, enc32 lo2.2, enc32 lo3.1, enc32 lo3.2, [altRef], enc32 alt.1, enc32 alt.2, reserved, enc32 t1.1, enc32 t1.2, enc32 t2.1, enc32 t2.2, enc32 t3.1, enc32 t3.2, sat, stat, mm, datum, date] la1.2 10 (by simp [catl, enc32_length, hlatRef, hver]) (hb _ (by simp))
    simp only [List.cons_append, List.nil_append] at hx hy
    rw [← hR] at hx hy
    unfold ratAt
    rw [hx, hy]
  have hC2 : ratAt R 14 = la2 := by
    have hx := u32_cat_at [ver, latRef, enc32 la1.1, enc32 la1.2] [enc32 la2.2, enc32 la3.1, enc32 la3.2, lonRef, enc32 lo1.1, enc32 lo1.2, enc32 lo2.1, enc32 lo2.2, enc32 lo3.1, enc32 lo3.2, [altRef], enc32 alt.1, enc32 alt.2, reserved, enc32 t1.1, enc32 t1.2, enc32 t2.1, enc32 t2.2, enc32 t3.1, enc32 t3.2, sat, stat, mm, datum, date] la2.1 14 (by simp [catl, enc32_length, hlatRef, hver]) (hb _ (by simp))
    have hy := u32_cat_at [ver, latRef, enc32 la1.1, enc32 la1.2, enc32 la2.1] [enc32 la3.1, enc32 la3.2, lonRef, enc32 lo1.1, enc32 lo1.2, enc32 lo2.1, enc32 lo2.2, enc32 lo3.1, enc32 lo3.2, [altRef], enc32 alt.1, enc32 alt.2, reserved, enc32 t1.1, enc32 t1.2, enc32 t2.1, enc32 t2.2, enc32 t3.1, enc32 t3.2, sat, stat, mm, datum, date] la2.2 18 (by simp [catl, enc32_length, hlatRef, hver]) (hb _ (by simp))
    simp only [List.cons_append, List.nil_append] at hx hy
    rw [← hR] at hx hy
    unfold ratAt
    rw [hx, hy]
  have hC3 : ratAt R 22 = la3 := by
    have hx := u32_cat_at [ver, latRef, enc32 la1.1, enc32 la1.2, enc32 la2.1, enc32 la2.2] [enc32 la3.2, lonRef, enc32 lo1.1, enc32 lo1.2, enc32 lo2.1, enc32 lo2.2, enc32 lo3.1, enc32 lo3.2, [altRef], enc32 alt.1, enc32 alt.2, reserved, enc32 t1.1, enc32 t1.2, enc32 t2.1, enc32 t2.2, enc32 t3.1, enc32 t3.2, sat, stat, mm, datum, date] la3.1 22 (by simp [catl, enc32_length, hlatRef, hver]) (hb _ (by simp))
    have hy := u32_cat_at [ver, latRef, enc32 la1.1, enc32 la1.2, enc32 la2.1, enc32 la2.2, enc32 la3.1] [lonRef, enc32 lo1.1, enc32 lo1.2, enc32 lo2.1, enc32 lo2.2, enc32 lo3.1, enc32 lo3.2, [altRef], enc32 alt.1, enc32 alt.2, reserved, enc32 t1.1, enc32 t1.2, enc32 t2.1, enc32 t2.2, enc32 t3.1, enc32 t3.2, sat, stat, mm, datum, date] la3.2 26 (by simp [catl, enc32_length, hlatRef, hver]) (hb _ (by simp))
    simp only [List.cons_append, List.nil_append] at hx hy
    rw [← hR] at hx hy
    unfold ratAt
    rw [hx, hy]
  have hD : readAt R 30 2 = lonRef := by
    have h := str_cat_at [ver, latRef, enc32 la1.1, enc32 la1.2, enc32 la2.1, enc32 la2.2, enc32 la3.1, enc32 la3.2] lonRef [enc32 lo1.1, enc32 lo1.2, enc32 lo2.1, enc32 lo2.2, enc32 lo3.1, enc32 lo3.2, [altRef], enc32 alt.1, enc32 alt.2, reserved, enc32 t1.1, enc32 t1.2, enc32 t2.1, enc32 t2.2, enc32 t3.1, enc32 t3.2, sat, stat, mm, datum, date] 30 2 (by simp [catl, enc32_length, hlatRef, hver]) hlonRef
    simp only [List.cons_append, List.nil_append] at h
    rw [← hR] at h
    exact h
  have hE1 : ratAt R 32 = lo1 := by
    have hx := u32_cat_at [ver, latRef, enc32 la1.1, enc32 la1.2, enc32 la2.1, enc32 la2.2, enc32 la3.1, enc32 la3.2, lonRef] [enc32 lo1.2, enc32 lo2.1, enc32 lo2.2, enc32 lo3.1, enc32 lo3.2, [altRef], enc32 alt.1, enc32 alt.2, reserved, enc32 t1.1, enc32 t1.2, enc32 t2.1, enc32 t2.2, enc32 t3.1, enc32 t3.2, sat, stat, mm, datum, date] lo1.1 32 (by simp [catl, enc32_length, hlatRef, hlonRef, hver]) (hb _ (by simp))
    have hy := u32_cat_at [ver, latRef, enc32 la1.1, enc32 la1.2, enc32 la2.1, enc32 la2.2, enc32 la3.1, enc32 la3.2, lonRef, enc32 lo1.1] [enc32 lo2.1, enc32 lo2.2, enc32 lo3.1, enc32 lo3.2, [altRef], enc32 alt.1, enc32 alt.2, reserved, enc32 t1.1, enc32 t1.2, enc32 t2.1, enc32 t2.2, enc32 t3.1, enc32 t3.2, sat, stat, mm, datum, date] lo1.2 36 (by simp [catl, enc32_length, hlatRef, hlonRef, hver]) (hb _ (by simp))
    simp only [List.cons_append, List.nil_append] at hx hy
    rw [← hR] at hx hy
    unfold ratAt
    rw [hx, hy]
  have hE2 : ratAt R 40 = lo2 := by
    have hx := u32_cat_at [ver, latRef, enc32 la1.1, enc32 la1.2, enc32 la2.1, enc32 la2.2, enc32 la3.1, enc32 la3.2, lonRef, enc32 lo1.1, enc32 lo1.2] [enc32 lo2.2, enc32 lo3.1, enc32 lo3.2, [altRef], enc32 alt.1, enc32 alt.2, reserved, enc32 t1.1, enc32 t1.2, enc32 t2.1, enc32 t2.2, enc32 t3.1, enc32 t3.2, sat, stat, mm, datum, date] lo2.1 40 (by simp [catl, enc32_length, hlatRef, hlonRef, hver]) (hb _ (by simp))
    have hy := u32_cat_at [ver, latRef, enc32 la1.1, enc32 la1.2, enc32 la2.1, enc32 la2.2, enc32 la3.1, enc32 la3.2, lonRef, enc32 lo1.1, enc32 lo1.2, enc32 lo2.1] [enc32 lo3.1, enc32 lo3.2, [altRef], enc32 alt.1, enc32 alt.2, reserved, enc32 t1.1, enc32 t1.2, enc32 t2.1, enc32 t2.2, enc32 t3.1, enc32 t3.2, sat, stat, mm, datum, date] lo2.2 44 (by simp [catl, enc32_length, hlatRef, hlonRef, hver]) (hb _ (by simp))
    simp only [List.cons_append, List.nil_append] at hx hy
    rw [← hR] at hx hy
    unfold ratAt
    rw [hx, hy]
  have hE3 : ratAt R 48 = lo3 := by
    have hx := u32_cat_at [ver, latRef, enc32 la1.1, enc32 la1.2, enc32 la2.1, enc32 la2.2, enc32 la3.1, enc32 la3.2, lonRef, enc32 lo1.1, enc32 lo1.2, enc32 lo2.1, enc32 lo2.2] [enc32 lo3.2, [altRef], enc32 alt.1, enc32 alt.2, reserved, enc32 t1.1, enc32 t1.2, enc32 t2.1, enc32 t2.2, enc32 t3.1, enc32 t3.2, sat, stat, mm, datum, date] lo3.1 48 (by simp [catl, enc32_length, hlatRef, hlonRef, hver]) (hb _ (by simp))
    have hy := u32_cat_at [ver, latRef, enc32 la1.1, enc32 la1.2, enc32 la2.1, enc32 la2.2, enc32 la3.1, enc32 la3.2, lonRef, enc32 lo1.1, enc32 lo1.2, enc32 lo2.1, enc32 lo2.2, enc32 lo3.1] [[altRef], enc32 alt.1, enc32 alt.2, reserved, enc32 t1.1, enc32 t1.2, enc32 t2.1, enc32 t2.2, enc32 t3.1, enc32 t3.2, sat, stat, mm, datum, date] lo3.2 52 (by simp [catl, enc32_length, hlatRef, hlonRef, hver]) (hb _ (by simp))
    simp only [List.cons_append, List.nil_append] at hx hy
    rw [← hR] at hx hy
    unfold ratAt
    rw [hx, hy]
  have hF : readAt R 56 1 = [altRef] := by
    have h := str_cat_at [ver, latRef, enc32 la1.1, enc32 la1.2, enc32 la2.1, enc32 la2.2, enc32 la3.1, enc32 la3.2, lonRef, enc32 lo1.1, enc32 lo1.2, enc32 lo2.1, enc32 lo2.2, enc32 lo3.1, enc32 lo3.2] [altRef] [enc32 alt.1, enc32 alt.2, reserved, enc32 t1.1, enc32 t1.2, enc32 t2.1, enc32 t2.2, enc32 t3.1, enc32 t3.2, sat, stat, mm, datum, date] 56 1 (by simp [catl, enc32_length, hlatRef, hlonRef, hver]) rfl
    simp only [List.cons_append, List.nil_append] at h
    rw [← hR] at h
    exact h
  have hG : ratAt R 57 = alt := by
    have hx := u32_cat_at [ver, latRef, enc32 la1.1, enc32 la1.2, enc32 la2.1, enc32 la2.2, enc32 la3.1, enc32 la3.2, lonRef, enc32 lo1.1, enc32 lo1.2, enc32 lo2.1, enc32 lo2.2, enc32 lo3.1, enc32 lo3.2, [altRef]] [enc32 alt.2, reserved, enc32 t1.1, enc32 t1.2, enc32 t2.1, enc32 t2.2, enc32 t3.1, enc32 t3.2, sat, stat, mm, datum, date] alt.1 57 (by simp [catl, enc32_length, hlatRef, hlonRef, hver]) (hb _ (by simp))
    have hy := u32_cat_at [ver, latRef, enc32 la1.1, enc32 la1.2, enc32 la2.1, enc32 la2.2, enc32 la3.1, enc32 la3.2, lonRef, enc32 lo1.1, enc32 lo1.2, enc32 lo2.1, enc32 lo2.2, enc32 lo3.1, enc32 lo3.2, [altRef], enc32 alt.1] [reserved, enc32 t1.1, enc32 t1.2, enc32 t2.1, enc32 t2.2, enc32 t3.1, enc32 t3.2, sat, stat, mm, datum, date] alt.2 61 (by simp [catl, enc32_length, hlatRef, hlonRef, hver]) (hb _ (by simp))
    simp only [List.cons_append, List.nil_append] at hx hy
    rw [← hR] at hx hy
    unfold ratAt
    rw [hx, hy]
  have hH1 : ratAt R 81 = t1 := by
    have hx := u32_cat_at [ver, latRef, enc32 la1.1, enc32 la1.2, enc32 la2.1, enc32 la2.2, enc32 la3.1, enc32 la3.2, lonRef, enc32 lo1.1, enc32 lo1.2, enc32 lo2.1, enc32 lo2.2, enc32 lo3.1, enc32 lo3.2, [altRef], enc32 alt.1, enc32 alt.2, reserved] [enc32 t1.2, enc32 t2.1, enc32 t2.2, enc32 t3.1, enc32 t3.2, sat, stat, mm, datum, date] t1.1 81 (by simp [catl, enc32_length, hlatRef, hlonRef, hres, hver]) (hb _ (by simp))
    have hy := u32_cat_at [ver, latRef, enc32 la1.1, enc32 la1.2, enc32 la2.1, enc32 la2.2, enc32 la3.1, enc32 la3.2, lonRef, enc32 lo1.1, enc32 lo1.2, enc32 lo2.1, enc32 lo2.2, enc32 lo3.1, enc32 lo3.2, [altRef], enc32 alt.1, enc32 alt.2, reserved, enc32 t1.1] [enc32 t2.1, enc32 t2.2, enc32 t3.1, enc32 t3.2, sat, stat, mm, datum, date] t1.2 85 (by simp [catl, enc32_length, hlatRef, hlonRef, hres, hver]) (hb _ (by simp))
    simp only [List.cons_append, List.nil_append] at hx hy
    rw [← hR] at hx hy
    unfold ratAt
    rw [hx, hy]
  have hH2 : ratAt R 89 = t2 := by
    have hx := u32_cat_at [ver, latRef, enc32 la1.1, enc32 la1.2, enc32 la2.1, enc32 la2.2, enc32 la3.1, enc32 la3.2, lonRef, enc32 lo1.1, enc32 lo1.2, enc32 lo2.1, enc32 lo2.2, enc32 lo3.1, enc32 lo3.2, [altRef], enc32 alt.1, enc32 alt.2, reserved, enc32 t1.1, enc32 t1.2] [enc32 t2.2, enc32 t3.1, enc32 t3.2, sat, stat, mm, datum, date] t2.1 89 (by simp [catl, enc32_length, hlatRef, hlonRef, hres, hver]) (hb _ (by simp))
    have hy := u32_cat_at [ver, latRef, enc32 la1.1, enc32 la1.2, enc32 la2.1, enc32 la2.2, enc32 la3.1, enc32 la3.2, lonRef, enc32 lo1.1, enc32 lo1.2, enc32 lo2.1, enc32 lo2.2, enc32 lo3.1, enc32 lo3.2, [altRef], enc32 alt.1, enc32 alt.2, reserved, enc32 t1.1, enc32 t1.2, enc32 t2.1] [enc32 t3.1, enc32 t3.2, sat, stat, mm, datum, date] t2.2 93 (by simp [catl, enc32_length, hlatRef, hlonRef, hres, hver]) (hb _ (by simp))
    simp only [List.cons_append, List.nil_append] at hx hy
    rw [← hR] at hx hy
    unfold ratAt
    rw [hx, hy]
  have hH3 : ratAt R 97 = t3 := by
    have hx := u32_cat_at [ver, latRef, enc32 la1.1, enc32 la1.2, enc32 la2.1, enc32 la2.2, enc32 la3.1, enc32 la3.2, lonRef, enc32 lo1.1, enc32 lo1.2, enc32 lo2.1, enc32 lo2.2, enc32 lo3.1, enc32 lo3.2, [altRef], enc32 alt.1, enc32 alt.2, reserved, enc32 t1.1, enc32 t1.2, enc32 t2.1, enc32 t2.2] [enc32 t3.2, sat, stat, mm, datum, date] t3.1 97 (by simp [catl, enc32_length, hlatRef, hlonRef, hres, hver]) (hb _ (by simp))
    have hy := u32_cat_at [ver, latRef, enc32 la1.1, enc32 la1.2, enc32 la2.1, enc32 la2.2, enc32 la3.1, enc32 la3.2, lonRef, enc32 lo1.1, enc32 lo1.2, enc32 lo2.1, enc32 lo2.2, enc32 lo3.1, enc32 lo3.2, [altRef], enc32 alt.1, enc32 alt.2, reserved, enc32 t1.1, enc32 t1.2, enc32 t2.1, enc32 t2.2, enc32 t3.1] [sat, stat, mm, datum, date] t3.2 101 (by simp [catl, enc32_length, hlatRef, hlonRef, hres, hver]) (hb _ (by simp))
    simp only [List.cons_append, List.nil_append] at hx hy
    rw [← hR] at hx hy
    unfold ratAt
    rw [hx, hy]
  have hI : readAt R 105 3 = sat := by
    have h := str_cat_at [ver, latRef, enc32 la1.1, enc32 la1.2, enc32 la2.1, enc32 la2.2, enc32 la3.1, enc32 la3.2, lonRef, enc32 lo1.1, enc32 lo1.2, enc32 lo2.1, enc32 lo2.2, enc32 lo3.1, enc32 lo3.2, [altRef], enc32 alt.1, enc32 alt.2, reserved, enc32 t1.1, enc32 t1.2, enc32 t2.1, enc32 t2.2, enc32 t3.1, enc32 t3.2] sat [stat, mm, datum, date] 105 3 (by simp [catl, enc32_length, hlatRef, hlonRef, hres, hver]) hsat
    simp only [List.cons_append, List.nil_append] at h
    rw [← hR] at h
    exact h
  have hJ : readAt R 108 2 = stat := by
    have h := str_cat_at [ver, latRef, enc32 la1.1, enc32 la1.2, enc32 la2.1, enc32 la2.2, enc32 la3.1, enc32 la3.2, lonRef, enc32 lo1.1, enc32 lo1.2, enc32 lo2.1, enc32 lo2.2, enc32 lo3.1, enc32 lo3.2, [altRef], enc32 alt.1, enc32 alt.2, reserved, enc32 t1.1, enc32 t1.2, enc32 t2.1, enc32 t2.2, enc32 t3.1, enc32 t3.2, sat] stat [mm, datum, date] 108 2 (by simp [catl, enc32_length, hlatRef, hlonRef, hres, hsat, hver]) hstat
    simp only [List.cons_append, List.nil_append] at h
    rw [← hR] at h
    exact h
  have hK : readAt R 110 2 = mm := by
    have h := str_cat_at [ver, latRef, enc32 la1.1, enc32 la1.2, enc32 la2.1, enc32 la2.2, enc32 la3.1, enc32 la3.2, lonRef, enc32 lo1.1, enc32 lo1.2, enc32 lo2.1, enc32 lo2.2, enc32 lo3.1, enc32 lo3.2, [altRef], enc32 alt.1, enc32 alt.2, reserved, enc32 t1.1, enc32 t1.2, enc32 t2.1, enc32 t2.2, enc32 t3.1, enc32 t3.2, sat, stat] mm [datum, date] 110 2 (by simp [catl, enc32_length, hlatRef, hlonRef, hres, hsat, hstat, hver]) hmml
    simp only [List.cons_append, List.nil_append] at h
    rw [← hR] at h
    exact h
  have hL : readAt R 112 7 = datum := by
    have h := str_cat_at [ver, latRef, enc32 la1.1, enc32 la1.2, enc32 la2.1, enc32 la2.2, enc32 la3.1, enc32 la3.2, lonRef, enc32 lo1.1, enc32 lo1.2, enc32 lo2.1, enc32 lo2.2, enc32 lo3.1, enc32 lo3.2, [altRef], enc32 alt.1, enc32 alt.2, reserved, enc32 t1.1, enc32 t1.2, enc32 t2.1, enc32 t2.2, enc32 t3.1, enc32 t3.2, sat, stat, mm] datum [date] 112 7 (by simp [catl, enc32_length, hlatRef, hlonRef, hmml, hres, hsat, hstat, hver]) hdatum
    simp only [List.cons_append, List.nil_append] at h
    rw [← hR] at h
    exact h
  have hM : readAt R 119 11 = date := by
    have h := str_cat_at [ver, latRef, enc32 la1.1, enc32 la1.2, enc32 la2.1, enc32 la2.2, enc32 la3.1, enc32 la3.2, lonRef, enc32 lo1.1, enc32 lo1.2, enc32 lo2.1, enc32 lo2.2, enc32 lo3.1, enc32 lo3.2, [altRef], enc32 alt.1, enc32 alt.2, reserved, enc32 t1.1, enc32 t1.2, enc32 t2.1, enc32 t2.2, enc32 t3.1, enc32 t3.2, sat, stat, mm, datum] date [] 119 11 (by simp [catl, enc32_length, hdatum, hlatRef, hlonRef, hmml, hres, hsat, hstat, hver]) hdate
    simp only [List.cons_append, List.nil_append] at h
    rw [← hR] at h
    exact h
  unfold decodeGpsFields
  rw [hA, hB, hC1, hC2, hC3, hD, hE1, hE2, hE3, hF, hG, hH1, hH2, hH3,
    hI, hJ, hK, hL, hM]
  rfl

/-! ## Payload slice lemmas -/

lemma soiM_length : soiM.length = 2 := rfl
lemma eoiM_length : eoiM.length = 2 := rfl
lemma strGPS_length : strGPS.length = 4 := rfl

lemma matchesAt_eq_true {pat b : List Nat} {i : Nat} :
    matchesAt pat b i = true ↔ readAt b i pat.length = pat := by
  simp [matchesAt]

lemma pay_len (f1 f2 f3 mid record f4 ts : List Nat)
    (hts : ts.length = 24) (hrec : record.length = 130) :
    (mkPayload f1 f2 f3 mid record f4 ts).length
      = f1.length + f2.length + f3.length + mid.length + f4.length + 183 := by
  simp only [mkPayload, catl, List.length_append, List.length_nil,
    modelLit_length, soiM_length, eoiM_length, strGPS_length, hts, hrec]
  omega

lemma pay_model (f1 f2 f3 mid record f4 ts : List Nat) :
    readAt (mkPayload f1 f2 f3 mid record f4 ts) f1.length 21 = modelLit := by
  have h := str_cat_at [f1] modelLit [f2, ts, f3, soiM, mid, eoiM, strGPS, record, f4]
    f1.length 21 (by simp [catl]) modelLit_length
  simpa only [List.cons_append, List.nil_append, mkPayload] using h

lemma pay_ts (f1 f2 f3 mid record f4 ts : List Nat) (hts : ts.length = 24) :
    readAt (mkPayload f1 f2 f3 mid record f4 ts)
      (f1.length + 21 + f2.length) 24 = ts := by
  have h := str_cat_at [f1, modelLit, f2] ts [f3, soiM, mid, eoiM, strGPS, record, f4]
    (f1.length + 21 + f2.length) 24
    (by simp only [catl, List.length_append, List.length_nil, modelLit_length]; omega)
    hts
  simpa only [List.cons_append, List.nil_append, mkPayload] using h

lemma pay_soi (f1 f2 f3 mid record f4 ts : List Nat) (hts : ts.length = 24) :
    readAt (mkPayload f1 f2 f3 mid record f4 ts)
      (f1.length + 45 + f2.length + f3.length) 2 = soiM := by
  have h := str_cat_at [f1, modelLit, f2, ts, f3] soiM [mid, eoiM, strGPS, record, f4]
    (f1.length + 45 + f2.length + f3.length) 2
    (by simp only [catl, List.length_append, List.length_nil, modelLit_length, hts]; omega)
    soiM_length
  simpa only [List.cons_append, List.nil_append, mkPayload] using h

lemma pay_thumb (f1 f2 f3 mid record f4 ts : List Nat) (hts : ts.length = 24) :
    readAt (mkPayload f1 f2 f3 mid record f4 ts)
      (f1.length + 45 + f2.length + f3.length) (mid.length + 4)
      = soiM ++ mid ++ eoiM := by
  have h := readAt_cat_at [f1, modelLit, f2, ts, f3] [soiM, mid, eoiM]
    [strGPS, record, f4]
    (f1.length + 45 + f2.length + f3.length) (mid.length + 4)
    (by simp only [catl, List.length_append, List.length_nil, modelLit_length, hts]; omega)
    (by simp only [catl, List.length_append, List.length_nil, soiM_length,
          eoiM_length]; omega)
  simp only [List.cons_append, List.nil_append, mkPayload] at h ⊢
  rw [h]
  simp [catl]

lemma pay_eoi (f1 f2 f3 mid record f4 ts : List Nat) (hts : ts.length = 24) :
    readAt (mkPayload f1 f2 f3 mid record f4 ts)
      (f1.length + 47 + f2.length + f3.length + mid.length) 2 = eoiM := by
  have h := str_cat_at [f1, modelLit, f2, ts, f3, soiM, mid] eoiM
    [strGPS, record, f4]
    (f1.length + 47 + f2.length + f3.length + mid.length) 2
    (by simp only [catl, List.length_append, List.length_nil, modelLit_length,
          hts, soiM_length]; omega)
    eoiM_length
  simpa only [List.cons_append, List.nil_append, mkPayload] using h

lemma pay_gps (f1 f2 f3 mid record f4 ts : List Nat) (hts : ts.length = 24) :
    readAt (mkPayload f1 f2 f3 mid record f4 ts)
      (f1.length + 47 + f2.length + f3.length + mid.length + 2) 4 = strGPS := by
  have h := str_cat_at [f1, modelLit, f2, ts, f3, soiM, mid, eoiM] strGPS
    [record, f4]
    (f1.length + 47 + f2.length + f3.length + mid.length + 2) 4
    (by simp only [catl, List.length_append, List.length_nil, modelLit_length,
          hts, soiM_length, eoiM_length]; omega)
    strGPS_length
  simpa only [List.cons_append, List.nil_append, mkPayload] using h

lemma pay_rec (f1 f2 f3 mid record f4 ts : List Nat) (hts : ts.length = 24)
    (hrec : record.length = 130) :
    readAt (mkPayload f1 f2 f3 mid record f4 ts)
      (f1.length + 47 + f2.length + f3.length + mid.length + 6) 130 = record := by
  have h := str_cat_at [f1, modelLit, f2, ts, f3, soiM, mid, eoiM, strGPS] record
    [f4]
    (f1.length + 47 + f2.length + f3.length + mid.length + 6) 130
    (by simp only [catl, List.length_append, List.length_nil, modelLit_length,
          hts, soiM_length, eoiM_length, strGPS_length]; omega)
    hrec
  simpa only [List.cons_append, List.nil_append, mkPayload] using h

/-- Master characterisation: on a synthetic container whose JUNK payload
carries the four fragments in order (no spurious earlier marker occurrences,
no later EOI+GPS_ pattern), `get_avi_metadata` returns exactly the injected
fragments, with the GPS record run through the decoder. -/
lemma master_meta (szB f1 f2 f3 mid record f4 rest ts : List Nat) (dt : DT)
    (hsz : szB.length = 4)
    (hts : ts.length = 24)
    (hshape : shape24 ts = true)
    (hparse : parseTs ts = some dt)
    (hrec : record.length = 130)
    (hpl : (mkPayload f1 f2 f3 mid record f4 ts).length < 4294967296)
    (h1 : ∀ i < f1.length,
      matchesAt modelLit (mkPayload f1 f2 f3 mid record f4 ts) i = false)
    (h2 : ∀ t < f1.length + 21 + f2.length, f1.length + 21 ≤ t →
      tsShapeAt (mkPayload f1 f2 f3 mid record f4 ts) t = false)
    (h3 : ∀ p < f1.length + 45 + f2.length + f3.length,
      f1.length + 21 + f2.length + 24 ≤ p →
      matchesAt soiM (mkPayload f1 f2 f3 mid record f4 ts) p = false)
    (h4 : ∀ q < (mkPayload f1 f2 f3 mid record f4 ts).length,
      f1.length + 47 + f2.length + f3.length + mid.length < q →
      okQ (mkPayload f1 f2 f3 mid record f4 ts) q = false) :
    get_avi_metadata (mkContainer szB (mkPayload f1 f2 f3 mid record f4 ts) rest)
      = Outcome.meta
          ⟨modelLit, dt, soiM ++ mid ++ eoiM, decodeGpsInfo record⟩ := by
  have lenP := pay_len f1 f2 f3 mid record f4 ts hts hrec
  have hne : mkPayload f1 f2 f3 mid record f4 ts ≠ [] := by
    intro h
    rw [h] at lenP
    simp only [List.length_nil] at lenP
    omega
  have hQ : okQ (mkPayload f1 f2 f3 mid record f4 ts)
      (f1.length + 47 + f2.length + f3.length + mid.length) = true := by
    simp only [okQ, Bool.and_eq_true, decide_eq_true_eq]
    refine ⟨⟨?_, ?_⟩, ?_⟩
    · rw [matchesAt_eq_true]
      exact pay_eoi f1 f2 f3 mid record f4 ts hts
    · rw [matchesAt_eq_true]
      exact pay_gps f1 f2 f3 mid record f4 ts hts
    · omega
  have hP : okP (mkPayload f1 f2 f3 mid record f4 ts)
      (f1.length + 45 + f2.length + f3.length) = true := by
    simp only [okP, Bool.and_eq_true]
    refine ⟨?_, ?_⟩
    · rw [matchesAt_eq_true]
      exact pay_soi f1 f2 f3 mid record f4 ts hts
    · refine range_any_true (j := f1.length + 47 + f2.length + f3.length + mid.length)
        (by omega) ?_
      simp only [Bool.and_eq_true, decide_eq_true_eq]
      exact ⟨by omega, hQ⟩
  have hT : okT (mkPayload f1 f2 f3 mid record f4 ts)
      (f1.length + 21 + f2.length) = true := by
    simp only [okT, Bool.and_eq_true]
    refine ⟨?_, ?_⟩
    · unfold tsShapeAt
      rw [pay_ts f1 f2 f3 mid record f4 ts hts]
      exact hshape
    · refine range_any_true (j := f1.length + 45 + f2.length + f3.length)
        (by omega) ?_
      simp only [Bool.and_eq_true, decide_eq_true_eq]
      exact ⟨by omega, hP⟩
  have hS : okS (mkPayload f1 f2 f3 mid record f4 ts) f1.length = true := by
    simp only [okS, Bool.and_eq_true]
    refine ⟨?_, ?_⟩
    · rw [matchesAt_eq_true]
      exact pay_model f1 f2 f3 mid record f4 ts
    · refine range_any_true (j := f1.length + 21 + f2.length) (by omega) ?_
      simp only [Bool.and_eq_true, decide_eq_true_eq]
      exact ⟨by omega, hT⟩
  have e1 : findFirstFrom (okS (mkPayload f1 f2 f3 mid record f4 ts)) 0
      (mkPayload f1 f2 f3 mid record f4 ts).length = some f1.length := by
    refine ffFrom_some _ _ _ _ (Nat.zero_le _) (by omega) hS ?_
    intro j _ hj
    simp [okS, h1 j hj]
  have e2 : findFirstFrom (okT (mkPayload f1 f2 f3 mid record f4 ts))
      (f1.length + 21) (mkPayload f1 f2 f3 mid record f4 ts).length
      = some (f1.length + 21 + f2.length) := by
    refine ffFrom_some _ _ _ _ (by omega) (by omega) hT ?_
    intro j hj1 hj2
    simp [okT, h2 j hj2 hj1]
  have e3 : findFirstFrom (okP (mkPayload f1 f2 f3 mid record f4 ts))
      (f1.length + 21 + f2.length + 24)
      (mkPayload f1 f2 f3 mid record f4 ts).length
      = some (f1.length + 45 + f2.length + f3.length) := by
    refine ffFrom_some _ _ _ _ (by omega) (by omega) hP ?_
    intro j hj1 hj2
    simp [okP, h3 j hj2 hj1]
  have e4 : findLastBelow
      (fun q => decide (f1.length + 45 + f2.length + f3.length + 2 ≤ q) &&
        okQ (mkPayload f1 f2 f3 mid record f4 ts) q)
      (mkPayload f1 f2 f3 mid record f4 ts).length
      = some (f1.length + 47 + f2.length + f3.length + mid.length) := by
    refine flBelow_some _ _ _ (by omega) ?_ ?_
    · simp only [Bool.and_eq_true, decide_eq_true_eq]
      exact ⟨by omega, hQ⟩
    · intro j hj1 hj2
      simp [h4 j hj2 hj1]
  have hsearch : regexSearch (mkPayload f1 f2 f3 mid record f4 ts)
      = some (f1.length, f1.length + 21 + f2.length,
          f1.length + 45 + f2.length + f3.length,
          f1.length + 47 + f2.length + f3.length + mid.length) := by
    simp only [regexSearch, e1, e2, e3, e4]
  have hjunk := getJunk_mkContainer szB (mkPayload f1 f2 f3 mid record f4 ts)
    rest hsz hpl
  have hparse2 : parseTs (readAt (mkPayload f1 f2 f3 mid record f4 ts)
      (f1.length + 21 + f2.length) 24) = some dt := by
    rw [pay_ts f1 f2 f3 mid record f4 ts hts]
    exact hparse
  simp only [get_avi_metadata, hjunk, hsearch, hparse2, if_neg hne]
  have hsub : f1.length + 47 + f2.length + f3.length + mid.length + 2
      - (f1.length + 45 + f2.length + f3.length) = mid.length + 4 := by omega
  rw [pay_model f1 f2 f3 mid record f4 ts, hsub,
    pay_thumb f1 f2 f3 mid record f4 ts hts,
    pay_rec f1 f2 f3 mid record f4 ts hts hrec]

/-- If no position of the payload carries the EOI+GPS_+130-bytes pattern, the
regex cannot match and the call returns the silent no-metadata result. -/
lemma get_avi_noQ (szB payload rest : List Nat) (hsz : szB.length = 4)
    (hpl : payload.length < 4294967296) (hne : payload ≠ [])
    (hq : ∀ q, q < payload.length → okQ payload q = false) :
    get_avi_metadata (mkContainer szB payload rest) = Outcome.noMeta := by
  have hP : ∀ p, p < payload.length → okP payload p = false := by
    intro p _
    have : (List.range payload.length).any
        (fun q => decide (p + 2 ≤ q) && okQ payload q) = false :=
      range_any_false (fun j hj => by simp [hq j hj])
    simp [okP, this]
  have hT : ∀ t, t < payload.length → okT payload t = false := by
    intro t _
    have : (List.range payload.length).any
        (fun p => decide (t + 24 ≤ p) && okP payload p) = false :=
      range_any_false (fun j hj => by simp [hP j hj])
    simp [okT, this]
  have hS : ∀ s, s < payload.length → okS payload s = false := by
    intro s _
    have : (List.range payload.length).any
        (fun t => decide (s + 21 ≤ t) && okT payload t) = false :=
      range_any_false (fun j hj => by simp [hT j hj])
    simp [okS, this]
  have hsearch : regexSearch payload = none := by
    simp only [regexSearch,
      ffFrom_none (okS payload) 0 payload.length (fun j _ hj => hS j hj)]
  have hjunk := getJunk_mkContainer szB payload rest hsz hpl
  simp only [get_avi_metadata, hjunk, hsearch, if_neg hne]

/-! ## Claim theorems -/

/-- Claim C2, counterexample: a 12-byte file whose first 4 bytes are "XIFF"
(not "RIFF") makes `get_avi_metadata` return the silent no-metadata result
(`None`), not a container-format error — the claim as stated is false. -/
theorem C2_cex : get_avi_metadata exNoRiff = Outcome.noMeta ∧
    get_avi_metadata exNoRiff ≠ Outcome.error := by
  constructor
  · decide
  · decide

/-- Claim C2 as amended: a file of at least 12 bytes whose first 4 bytes are
not "RIFF", or whose form type at offset 8 is not "AVI ", yields the silent
no-metadata result (`None`); only a file shorter than 12 bytes surfaces a
format error (struct.error on the short header read). -/
theorem C2_amended :
    (∀ data : List Nat, 12 ≤ data.length → readAt data 0 4 ≠ strRIFF →
      get_avi_metadata data = Outcome.noMeta)
    ∧ (∀ data : List Nat, 12 ≤ data.length → readAt data 8 4 ≠ strAVI →
      get_avi_metadata data = Outcome.noMeta)
    ∧ (∀ data : List Nat, data.length < 12 →
      get_avi_metadata data = Outcome.error) := by
  refine ⟨?_, ?_, ?_⟩
  · intro data hlen htag
    have hj : getJunkChunk data = ScanOut.noJunk := by
      unfold getJunkChunk
      rw [if_neg (by omega), if_neg (fun h => htag h.1)]
    simp [get_avi_metadata, hj]
  · intro data hlen htyp
    have hj : getJunkChunk data = ScanOut.noJunk := by
      unfold getJunkChunk
      rw [if_neg (by omega), if_neg (fun h => htyp h.2)]
    simp [get_avi_metadata, hj]
  · intro data hlen
    have hj : getJunkChunk data = ScanOut.err := by
      unfold getJunkChunk
      rw [if_pos hlen]
    simp [get_avi_metadata, hj]

theorem C2_witness :
    get_avi_metadata (bytesOf "JUNKabcdAVI ") = Outcome.noMeta ∧
    get_avi_metadata (bytesOf "RIFFabcdAVIX") = Outcome.noMeta ∧
    get_avi_metadata (bytesOf "RIFF") = Outcome.error :=
  ⟨C2_amended.1 (bytesOf "JUNKabcdAVI ") (by decide) (by decide),
   C2_amended.2.1 (bytesOf "RIFFabcdAVIX") (by decide) (by decide),
   C2_amended.2.2 (bytesOf "RIFF") (by decide)⟩

/-- Claim C4: a 130-byte GPS record whose latitude-reference field trims to
the empty string decodes to an absent (`None`) field map in its entirety,
regardless of every other field. -/
theorem C4_gps_absent_atomic (r : List Nat) (_h130 : r.length = 130)
    (hempty : rstripSp (readAt r 4 2) = []) : decodeGpsInfo r = none := by
  unfold decodeGpsInfo decodeGpsFields
  simp [hempty]

theorem C4_witness :
    recBlank.length = 130 ∧ rstripSp (readAt recBlank 4 2) = [] ∧
    decodeGpsInfo recBlank = none :=
  ⟨by decide, by decide, C4_gps_absent_atomic recBlank (by decide) (by decide)⟩

/-- Claim C5: one step of the chunk scan (after a valid RIFF/AVI header, at
a position whose 8-byte chunk header is readable): a JUNK chunk returns its
size-byte read; a LIST chunk with subtype "movi" stops with the
auxiliary-block-absent result; a LIST chunk with another subtype skips
`size - 4` bytes past the subtype read (landing at `cur + 8 + size`); any
other chunk skips `size` bytes. -/
theorem C5_scan_steps :
    (∀ (data : List Nat) (cur fuel : Nat), cur + 8 ≤ data.length →
      readAt data cur 4 = strJUNK →
      chunkScan data cur (fuel + 1)
        = ScanOut.found (readAt data (cur + 8) (le32 (readAt data (cur + 4) 4))))
    ∧ (∀ (data : List Nat) (cur fuel : Nat), cur + 8 ≤ data.length →
      readAt data cur 4 = strLIST → readAt data (cur + 8) 4 = strMovi →
      chunkScan data cur (fuel + 1) = ScanOut.noJunk)
    ∧ (∀ (data : List Nat) (cur fuel : Nat), cur + 12 ≤ data.length →
      readAt data cur 4 = strLIST → readAt data (cur + 8) 4 ≠ strMovi →
      4 ≤ le32 (readAt data (cur + 4) 4) →
      chunkScan data cur (fuel + 1)
        = chunkScan data (cur + 8 + le32 (readAt data (cur + 4) 4)) fuel)
    ∧ (∀ (data : List Nat) (cur fuel : Nat), cur + 8 ≤ data.length →
      readAt data cur 4 ≠ strJUNK → readAt data cur 4 ≠ strLIST →
      chunkScan data cur (fuel + 1)
        = chunkScan data (cur + 8 + le32 (readAt data (cur + 4) 4)) fuel) :=
  ⟨chunkScan_junk, chunkScan_movi, chunkScan_listSkip, chunkScan_skip⟩

theorem C5_witness :
    chunkScan dataJunkW 12 6 = ScanOut.found [7, 7]
    ∧ chunkScan dataMoviW 12 6 = ScanOut.noJunk
    ∧ chunkScan dataListW 12 6 = chunkScan dataListW 28 5
    ∧ chunkScan dataSkipW 12 6 = chunkScan dataSkipW 23 5 := by
  refine ⟨?_, ?_, ?_, ?_⟩
  · exact (C5_scan_steps.1 dataJunkW 12 5 (by decide) (by decide)).trans (by decide)
  · exact C5_scan_steps.2.1 dataMoviW 12 5 (by decide) (by decide) (by decide)
  · exact C5_scan_steps.2.2.1 dataListW 12 5 (by decide) (by decide) (by decide)
      (by decide)
  · exact C5_scan_steps.2.2.2 dataSkipW 12 5 (by decide) (by decide) (by decide)

/-- Claim C6, counterexample: a truncated container whose JUNK chunk declares
100 payload bytes while only 2 remain.  The short `f.read(size)` silently
returns the 2 available bytes (no I/O failure), and the overall call returns
the silent no-metadata result instead of propagating an error — the claim's
"short read at any step is an I/O failure" is false for the payload read. -/
theorem C6_cex :
    getJunkChunk exTruncJunk = ScanOut.found [65, 66]
    ∧ get_avi_metadata exTruncJunk = Outcome.noMeta
    ∧ get_avi_metadata exTruncJunk ≠ Outcome.error := by
  refine ⟨by decide, by decide, by decide⟩

/-- Claim C6 as amended: the chunk scan always terminates (the fuelled model
never exhausts its fuel); a short read of the 12-byte RIFF header or of an
8-byte chunk header is an error propagated immediately; but the read of the
located JUNK payload is not checked — it succeeds with the available bytes,
which may be fewer than the declared size. -/
theorem C6_amended :
    (∀ data : List Nat, getJunkChunk data ≠ ScanOut.outOfFuel)
    ∧ (∀ data : List Nat, data.length < 12 → getJunkChunk data = ScanOut.err)
    ∧ (∀ (data : List Nat) (cur fuel : Nat), data.length < cur + 8 →
        chunkScan data cur (fuel + 1) = ScanOut.err)
    ∧ (∀ (data : List Nat) (cur fuel : Nat), cur + 8 ≤ data.length →
        readAt data cur 4 = strJUNK →
        ∃ b : List Nat, chunkScan data cur (fuel + 1) = ScanOut.found b ∧
          b.length = min (le32 (readAt data (cur + 4) 4))
            (data.length - (cur + 8))) := by
  refine ⟨getJunkChunk_ne_outOfFuel, ?_, chunkScan_short, ?_⟩
  · intro data h
    unfold getJunkChunk
    rw [if_pos h]
  · intro data cur fuel hlen htag
    refine ⟨_, chunkScan_junk data cur fuel hlen htag, ?_⟩
    simp [readAt]

theorem C6_witness :
    getJunkChunk [1, 2, 3] = ScanOut.err
    ∧ chunkScan [1, 2, 3] 0 1 = ScanOut.err
    ∧ (∃ b : List Nat, chunkScan exTruncJunk 12 1 = ScanOut.found b ∧
        b.length = min (le32 (readAt exTruncJunk 16 4)) (exTruncJunk.length - 20)) :=
  ⟨C6_amended.2.1 [1, 2, 3] (by decide),
   C6_amended.2.2.1 [1, 2, 3] 0 0 (by decide),
   C6_amended.2.2.2 exTruncJunk 12 0 (by decide) (by decide)⟩

/-- Claim C8: (1) two field maps identical except for latitude reference "S"
vs "N" give exactly opposite decimal latitudes; (2)/(3) in general the
decimal latitude/longitude is degrees + minutes/60 + seconds/3600 computed
from the three exact rational pairs, negated exactly when the reference is
"S" (latitude) resp. "W" (longitude).  Python float arithmetic is modelled
by exact rationals. -/
theorem C8_latlong_sign :
    (∀ (g : GpsInfo) (cm : List Nat) (dtv : DT) (th : List Nat),
      Metadata.gps_latitude ⟨cm, dtv, th, some { g with latitudeRef := bytesOf "S" }⟩
        = (Metadata.gps_latitude
            ⟨cm, dtv, th, some { g with latitudeRef := bytesOf "N" }⟩).map
            (fun x => -x))
    ∧ (∀ (g : GpsInfo) (cm : List Nat) (dtv : DT) (th : List Nat)
        (a b c d e f : Nat), g.latitude = ((a, b), (c, d), (e, f)) →
      Metadata.gps_latitude ⟨cm, dtv, th, some g⟩
        = some (if g.latitudeRef = bytesOf "S"
            then -((a : ℚ) / b + ((c : ℚ) / d) / 60 + ((e : ℚ) / f) / 3600)
            else (a : ℚ) / b + ((c : ℚ) / d) / 60 + ((e : ℚ) / f) / 3600))
    ∧ (∀ (g : GpsInfo) (cm : List Nat) (dtv : DT) (th : List Nat)
        (a b c d e f : Nat), g.longitude = ((a, b), (c, d), (e, f)) →
      Metadata.gps_longitude ⟨cm, dtv, th, some g⟩
        = some (if g.longitudeRef = bytesOf "W"
            then -((a : ℚ) / b + ((c : ℚ) / d) / 60 + ((e : ℚ) / f) / 3600)
            else (a : ℚ) / b + ((c : ℚ) / d) / 60 + ((e : ℚ) / f) / 3600)) := by
  refine ⟨?_, ?_, ?_⟩
  · intro g cm dtv th
    have hne : bytesOf "N" ≠ bytesOf "S" := by decide
    simp [Metadata.gps_latitude, hne]
  · intro g cm dtv th a b c d e f h
    simp [Metadata.gps_latitude, latlongDeg, ratOf, h]
  · intro g cm dtv th a b c d e f h
    simp [Metadata.gps_longitude, latlongDeg, ratOf, h]

theorem C8_witness :
    Metadata.gps_latitude ⟨[], ⟨2012, 1, 2, 3, 4, 5⟩, [],
        some ⟨[2, 3, 0, 0], [83], ((35, 1), (12, 1), (3456, 100)), [69],
          ((139, 1), (0, 1), (0, 1)), 0, (10, 1), ((3, 1), (4, 1), (5, 1)),
          [48, 54], [65], [51], [87, 71, 83, 45, 56, 52], [50]⟩⟩
      = some (-((35 : ℚ) / 1 + ((12 : ℚ) / 1) / 60 + ((3456 : ℚ) / 100) / 3600))
    ∧ Metadata.gps_longitude ⟨[], ⟨2012, 1, 2, 3, 4, 5⟩, [],
        some ⟨[2, 3, 0, 0], [78], ((35, 1), (12, 1), (3456, 100)), [69],
          ((139, 1), (0, 1), (0, 1)), 0, (10, 1), ((3, 1), (4, 1), (5, 1)),
          [48, 54], [65], [51], [87, 71, 83, 45, 56, 52], [50]⟩⟩
      = some ((139 : ℚ) / 1 + ((0 : ℚ) / 1) / 60 + ((0 : ℚ) / 1) / 3600) := by
  constructor
  · exact (C8_latlong_sign.2.1 _ [] ⟨2012, 1, 2, 3, 4, 5⟩ []
      35 1 12 1 3456 100 rfl).trans (by rw [if_pos (by decide)]; norm_num)
  · exact (C8_latlong_sign.2.2 _ [] ⟨2012, 1, 2, 3, 4, 5⟩ []
      139 1 0 1 0 1 rfl).trans (by rw [if_neg (by decide)]; norm_num)

/-- Claim C9: for a present altitude rational `(n, d)`, the altitude accessor
returns `-(n/d)` when the altitude-reference byte is 1 and `n/d` when it is 0
(Python float arithmetic modelled by exact rationals). -/
theorem C9_altitude_sign (cm : List Nat) (dtv : DT) (th : List Nat)
    (g : GpsInfo) (n d : Nat) (halt : g.altitude = (n, d)) :
    (g.altitudeRef = 1 →
      Metadata.gps_altitude ⟨cm, dtv, th, some g⟩ = some (-((n : ℚ) / d)))
    ∧ (g.altitudeRef = 0 →
      Metadata.gps_altitude ⟨cm, dtv, th, some g⟩ = some ((n : ℚ) / d)) := by
  constructor
  · intro h
    simp [Metadata.gps_altitude, h, halt, ratOf]
  · intro h
    simp [Metadata.gps_altitude, h, halt, ratOf]

theorem C9_witness :
    Metadata.gps_altitude ⟨[], ⟨2012, 1, 2, 3, 4, 5⟩, [],
        some ⟨[2, 3, 0, 0], [78], ((35, 1), (12, 1), (3456, 100)), [69],
          ((139, 1), (0, 1), (0, 1)), 1, (10, 1), ((3, 1), (4, 1), (5, 1)),
          [48, 54], [65], [51], [87, 71, 83, 45, 56, 52], [50]⟩⟩
      = some (-((10 : ℚ) / 1))
    ∧ Metadata.gps_altitude ⟨[], ⟨2012, 1, 2, 3, 4, 5⟩, [],
        some ⟨[2, 3, 0, 0], [78], ((35, 1), (12, 1), (3456, 100)), [69],
          ((139, 1), (0, 1), (0, 1)), 0, (10, 1), ((3, 1), (4, 1), (5, 1)),
          [48, 54], [65], [51], [87, 71, 83, 45, 56, 52], [50]⟩⟩
      = some ((10 : ℚ) / 1) :=
  ⟨(C9_altitude_sign [] ⟨2012, 1, 2, 3, 4, 5⟩ [] _ 10 1 rfl).1 rfl,
   (C9_altitude_sign [] ⟨2012, 1, 2, 3, 4, 5⟩ [] _ 10 1 rfl).2 rfl⟩

/-- Claim C10: with `gpsinfo` absent every derived GPS accessor returns
`None` (rather than raising), while the three plain fields still return the
constructed values. -/
theorem C10_absent_gps_accessors (cm : List Nat) (dtv : DT) (th : List Nat) :
    (Metadata.mk cm dtv th none).gps_version_id = none
    ∧ (Metadata.mk cm dtv th none).gps_latitude = none
    ∧ (Metadata.mk cm dtv th none).gps_longitude = none
    ∧ (Metadata.mk cm dtv th none).gps_altitude = none
    ∧ (Metadata.mk cm dtv th none).gps_satellites = none
    ∧ (Metadata.mk cm dtv th none).gps_status = none
    ∧ (Metadata.mk cm dtv th none).gps_measure_mode = none
    ∧ (Metadata.mk cm dtv th none).gps_map_datum = none
    ∧ (Metadata.mk cm dtv th none).gps_datetime = none
    ∧ (Metadata.mk cm dtv th none).camera_model = cm
    ∧ (Metadata.mk cm dtv th none).datetime_original = dtv
    ∧ (Metadata.mk cm dtv th none).thumbnail = th :=
  ⟨rfl, rfl, rfl, rfl, rfl, rfl, rfl, rfl, rfl, rfl, rfl, rfl⟩

/-- Claim C7: the decoder reads the 130-byte record as little-endian fields
in the fixed order and widths (4x1-byte version, 2-byte latitude ref, three
4+4-byte rational pairs for latitude, 2-byte longitude ref, three pairs for
longitude, 1-byte altitude ref, one pair for altitude, 16 skipped bytes,
three pairs for time-of-day, ASCII fields of widths 3/2/2/7/11); ASCII
fields are right-trimmed of spaces and NULs, and every rational is kept as
its exact numerator/denominator pair.  Stated as a round trip against the
offset-faithful record builder `mkGpsRecord`. -/
theorem C7_decode_layout
    (ver latRef lonRef reserved sat stat mm datum date : List Nat)
    (la1 la2 la3 lo1 lo2 lo3 alt t1 t2 t3 : RatPair) (altRef : Nat)
    (hver : ver.length = 4) (hlatRef : latRef.length = 2)
    (hlonRef : lonRef.length = 2) (hres : reserved.length = 16)
    (hsat : sat.length = 3) (hstat : stat.length = 2) (hmml : mm.length = 2)
    (hdatum : datum.length = 7) (hdate : date.length = 11)
    (hb : ∀ x ∈ [la1.1, la1.2, la2.1, la2.2, la3.1, la3.2, lo1.1, lo1.2,
      lo2.1, lo2.2, lo3.1, lo3.2, alt.1, alt.2, t1.1, t1.2, t2.1, t2.2,
      t3.1, t3.2], x < 4294967296) :
    decodeGpsFields (mkGpsRecord ver latRef la1 la2 la3 lonRef lo1 lo2 lo3
        altRef alt reserved t1 t2 t3 sat stat mm datum date)
    = ⟨ver, rstripSp latRef, (la1, la2, la3), rstripSp lonRef,
       (lo1, lo2, lo3), altRef, alt, (t1, t2, t3), rstripSp sat, rstripSp stat,
       rstripSp mm, rstripSp datum, rstripSp date⟩ :=
  decodeGpsFields_mk ver latRef lonRef reserved sat stat mm datum date
    la1 la2 la3 lo1 lo2 lo3 alt t1 t2 t3 altRef hver hlatRef hlonRef hres
    hsat hstat hmml hdatum hdate hb

theorem C7_witness :
    decodeGpsFields recEx
      = ⟨[2, 3, 0, 0], [78], ((35, 1), (12, 1), (3456, 100)), [69],
         ((139, 1), (0, 1), (0, 1)), 0, (10, 1), ((3, 1), (4, 1), (5, 1)),
         [48, 54], [65], [51], [87, 71, 83, 45, 56, 52],
         [50, 48, 49, 50, 58, 48, 49, 58, 48, 50]⟩ :=
  (C7_decode_layout [2, 3, 0, 0] (bytesOf "N" ++ [0]) (bytesOf "E" ++ [0])
    (List.replicate 16 0) (bytesOf "06" ++ [0]) (bytesOf "A" ++ [0])
    (bytesOf "3" ++ [0]) (bytesOf "WGS-84 ") (bytesOf "2012:01:02" ++ [0])
    (35, 1) (12, 1) (3456, 100) (139, 1) (0, 1) (0, 1) (10, 1)
    (3, 1) (4, 1) (5, 1) 0
    (by decide) (by decide) (by decide) (by decide) (by decide) (by decide)
    (by decide) (by decide) (by decide) (by decide)).trans (by decide)

/-- Claim C1, counterexample: a well-formed RIFF/AVI container whose JUNK
payload carries the device literal, a valid timestamp, a complete JPEG
thumbnail and the GPS_-marked 130-byte record in order, with a single filler
byte between the thumbnail's EOI marker and the GPS_ marker.  The claim
demands a populated Metadata; the code's regex requires GPS_ to follow the
EOI immediately, so the call returns the silent no-metadata result. -/
theorem C1_cex :
    get_avi_metadata exFiller = Outcome.noMeta
    ∧ (∀ m : Metadata, get_avi_metadata exFiller ≠ Outcome.meta m) := by
  have h : get_avi_metadata exFiller = Outcome.noMeta :=
    get_avi_noQ [0, 0, 0, 0] payFiller [] (by decide) (by decide) (by decide)
      (by decide)
  exact ⟨h, fun m hm => by rw [h] at hm; exact Outcome.noConfusion hm⟩

/-- Claim C1 as amended: the round trip holds when the GPS_ marker
immediately follows the thumbnail's EOI marker (no filler there) and the
filler creates no spurious match: no earlier occurrence of the device
literal, no timestamp-shaped bytes between the literal and the injected
timestamp, no SOI marker between the timestamp and the thumbnail, and no
later EOI immediately followed by GPS_ and 130 bytes.  Then the Metadata
fields are exactly the injected values, the GPS field map carrying the
injected record fields (ASCII fields right-trimmed as documented). -/
theorem C1_roundtrip (szB f1 f2 f3 mid f4 rest ts record : List Nat) (dt : DT)
    (ver latRef lonRef reserved sat stat mm datum date : List Nat)
    (la1 la2 la3 lo1 lo2 lo3 alt t1 t2 t3 : RatPair) (altRef : Nat)
    (hrecdef : record = mkGpsRecord ver latRef la1 la2 la3 lonRef lo1 lo2 lo3
      altRef alt reserved t1 t2 t3 sat stat mm datum date)
    (hsz : szB.length = 4) (hts : ts.length = 24) (hshape : shape24 ts = true)
    (hparse : parseTs ts = some dt)
    (hver : ver.length = 4) (hlatRef : latRef.length = 2)
    (hlonRef : lonRef.length = 2) (hres : reserved.length = 16)
    (hsat : sat.length = 3) (hstat : stat.length = 2) (hmml : mm.length = 2)
    (hdatum : datum.length = 7) (hdate : date.length = 11)
    (hb : ∀ x ∈ [la1.1, la1.2, la2.1, la2.2, la3.1, la3.2, lo1.1, lo1.2,
      lo2.1, lo2.2, lo3.1, lo3.2, alt.1, alt.2, t1.1, t1.2, t2.1, t2.2,
      t3.1, t3.2], x < 4294967296)
    (hlatne : rstripSp latRef ≠ [])
    (hpl : (mkPayload f1 f2 f3 mid record f4 ts).length < 4294967296)
    (h1 : ∀ i < f1.length,
      matchesAt modelLit (mkPayload f1 f2 f3 mid record f4 ts) i = false)
    (h2 : ∀ t < f1.length + 21 + f2.length, f1.length + 21 ≤ t →
      tsShapeAt (mkPayload f1 f2 f3 mid record f4 ts) t = false)
    (h3 : ∀ p < f1.length + 45 + f2.length + f3.length,
      f1.length + 21 + f2.length + 24 ≤ p →
      matchesAt soiM (mkPayload f1 f2 f3 mid record f4 ts) p = false)
    (h4 : ∀ q < (mkPayload f1 f2 f3 mid record f4 ts).length,
      f1.length + 47 + f2.length + f3.length + mid.length < q →
      okQ (mkPayload f1 f2 f3 mid record f4 ts) q = false) :
    get_avi_metadata (mkContainer szB (mkPayload f1 f2 f3 mid record f4 ts) rest)
      = Outcome.meta
          ⟨modelLit, dt, soiM ++ mid ++ eoiM,
           some ⟨ver, rstripSp latRef, (la1, la2, la3), rstripSp lonRef,
             (lo1, lo2, lo3), altRef, alt, (t1, t2, t3), rstripSp sat,
             rstripSp stat, rstripSp mm, rstripSp datum, rstripSp date⟩⟩ := by
  subst hrecdef
  have hrecl : (mkGpsRecord ver latRef la1 la2 la3 lonRef lo1 lo2 lo3
      altRef alt reserved t1 t2 t3 sat stat mm datum date).length = 130 := by
    simp only [mkGpsRecord, catl, List.length_append, List.length_nil,
      List.length_cons, enc32_length, hver, hlatRef, hlonRef, hres, hsat,
      hstat, hmml, hdatum, hdate]
  have hdec : decodeGpsInfo (mkGpsRecord ver latRef la1 la2 la3 lonRef lo1
      lo2 lo3 altRef alt reserved t1 t2 t3 sat stat mm datum date)
      = some ⟨ver, rstripSp latRef, (la1, la2, la3), rstripSp lonRef,
          (lo1, lo2, lo3), altRef, alt, (t1, t2, t3), rstripSp sat,
          rstripSp stat, rstripSp mm, rstripSp datum, rstripSp date⟩ := by
    unfold decodeGpsInfo
    rw [decodeGpsFields_mk ver latRef lonRef reserved sat stat mm datum date
      la1 la2 la3 lo1 lo2 lo3 alt t1 t2 t3 altRef hver hlatRef hlonRef hres
      hsat hstat hmml hdatum hdate hb]
    simp [hlatne]
  rw [master_meta szB f1 f2 f3 mid
    (mkGpsRecord ver latRef la1 la2 la3 lonRef lo1 lo2 lo3 altRef alt
      reserved t1 t2 t3 sat stat mm datum date)
    f4 rest ts dt hsz hts hshape hparse hrecl hpl h1 h2 h3 h4, hdec]

theorem C1_witness :
    get_avi_metadata
        (mkContainer [0, 0, 0, 0] (mkPayload [] [] [] [] recEx [] tsEx) [])
      = Outcome.meta
          ⟨modelLit, ⟨2012, 1, 2, 3, 4, 5⟩, [255, 216, 255, 217],
           some ⟨[2, 3, 0, 0], [78], ((35, 1), (12, 1), (3456, 100)), [69],
             ((139, 1), (0, 1), (0, 1)), 0, (10, 1), ((3, 1), (4, 1), (5, 1)),
             [48, 54], [65], [51], [87, 71, 83, 45, 56, 52],
             [50, 48, 49, 50, 58, 48, 49, 58, 48, 50]⟩⟩ :=
  (C1_roundtrip [0, 0, 0, 0] [] [] [] [] [] [] tsEx recEx
    ⟨2012, 1, 2, 3, 4, 5⟩
    [2, 3, 0, 0] (bytesOf "N" ++ [0]) (bytesOf "E" ++ [0]) (List.replicate 16 0)
    (bytesOf "06" ++ [0]) (bytesOf "A" ++ [0]) (bytesOf "3" ++ [0])
    (bytesOf "WGS-84 ") (bytesOf "2012:01:02" ++ [0])
    (35, 1) (12, 1) (3456, 100) (139, 1) (0, 1) (0, 1) (10, 1)
    (3, 1) (4, 1) (5, 1) 0
    rfl (by decide) (by decide) (by decide) (by decide) (by decide) (by decide)
    (by decide) (by decide) (by decide) (by decide) (by decide) (by decide)
    (by decide) (by decide) (by decide) (by decide) (by decide) (by decide)
    (by decide) (by decide)).trans (by decide)

/-- Claim C3, counterexample: in a payload whose thumbnail bytes contain an
earlier FF D9 (at offset 3 of the thumbnail) before the final FF D9 that
precedes GPS_, the extracted thumbnail runs to the final EOI marker, not to
the first one after the SOI as the claim states (the regex's `.*` inside
group 3 is greedy). -/
theorem C3_cex :
    get_avi_metadata exTwoEoi
      = Outcome.meta ⟨modelLit, ⟨2012, 1, 2, 3, 4, 5⟩,
          [255, 216, 0, 255, 217, 1, 255, 217], decodeGpsInfo recEx⟩
    ∧ ([255, 216, 0, 255, 217, 1, 255, 217] : List Nat)
        ≠ [255, 216, 0, 255, 217] := by
  constructor
  · exact (master_meta [0, 0, 0, 0] [] [] [] [0, 255, 217, 1] recEx [] [] tsEx
      ⟨2012, 1, 2, 3, 4, 5⟩ (by decide) (by decide) (by decide) (by decide)
      (by decide) (by decide) (by decide) (by decide) (by decide)
      (by decide)).trans (by decide)
  · decide

/-- Claim C3 as amended: the thumbnail is the byte run from the SOI marker to
the LAST end-of-image marker that is immediately followed by the GPS_ marker
with at least 130 bytes after it (greedy matching) — EOI markers occurring
inside the thumbnail before that point are included, not treated as its
end. -/
theorem C3_thumbnail_greedy
    (szB f1 f2 f3 mid1 mid2 record f4 rest ts : List Nat) (dt : DT)
    (hsz : szB.length = 4) (hts : ts.length = 24) (hshape : shape24 ts = true)
    (hparse : parseTs ts = some dt) (hrec : record.length = 130)
    (hpl : (mkPayload f1 f2 f3 (mid1 ++ eoiM ++ mid2) record f4 ts).length
      < 4294967296)
    (h1 : ∀ i < f1.length, matchesAt modelLit
      (mkPayload f1 f2 f3 (mid1 ++ eoiM ++ mid2) record f4 ts) i = false)
    (h2 : ∀ t < f1.length + 21 + f2.length, f1.length + 21 ≤ t →
      tsShapeAt (mkPayload f1 f2 f3 (mid1 ++ eoiM ++ mid2) record f4 ts) t
        = false)
    (h3 : ∀ p < f1.length + 45 + f2.length + f3.length,
      f1.length + 21 + f2.length + 24 ≤ p →
      matchesAt soiM (mkPayload f1 f2 f3 (mid1 ++ eoiM ++ mid2) record f4 ts) p
        = false)
    (h4 : ∀ q < (mkPayload f1 f2 f3 (mid1 ++ eoiM ++ mid2) record f4 ts).length,
      f1.length + 47 + f2.length + f3.length + (mid1 ++ eoiM ++ mid2).length < q →
      okQ (mkPayload f1 f2 f3 (mid1 ++ eoiM ++ mid2) record f4 ts) q = false) :
    get_avi_metadata (mkContainer szB
        (mkPayload f1 f2 f3 (mid1 ++ eoiM ++ mid2) record f4 ts) rest)
      = Outcome.meta ⟨modelLit, dt, soiM ++ (mid1 ++ eoiM ++ mid2) ++ eoiM,
          decodeGpsInfo record⟩ :=
  master_meta szB f1 f2 f3 (mid1 ++ eoiM ++ mid2) record f4 rest ts dt
    hsz hts hshape hparse hrec hpl h1 h2 h3 h4

theorem C3_witness :
    get_avi_metadata (mkContainer [0, 0, 0, 0]
        (mkPayload [] [] [] ([0] ++ eoiM ++ [1]) recEx [] tsEx) [])
      = Outcome.meta ⟨modelLit, ⟨2012, 1, 2, 3, 4, 5⟩,
          soiM ++ ([0] ++ eoiM ++ [1]) ++ eoiM, decodeGpsInfo recEx⟩ :=
  C3_thumbnail_greedy [0, 0, 0, 0] [] [] [] [0] [1] recEx [] [] tsEx
    ⟨2012, 1, 2, 3, 4, 5⟩ (by decide) (by decide) (by decide) (by decide)
    (by decide) (by decide) (by decide) (by decide) (by decide) (by decide)
